import Mathlib

/-!
Verification of the rustgb Game Boy emulator core against its specification.

Shallow embedding conventions:
* `u8` / `u16` machine integers are modelled as `Nat` with explicit `% 256`
  (resp. `% 65536`) at the places where the Rust code wraps or casts.
* Byte arrays (`[u8; N]`, `Vec<u8>`) are modelled as total functions
  `Nat → Nat` together with explicit bounds checks at every indexing site
  where the Rust indexing can fail, or as `List Nat` with `List.get?`.
* Code that can fail at runtime (Rust `panic!` / `unreachable!` /
  `unimplemented!` / failing `assert!` / out-of-bounds indexing /
  `Option::unwrap` on `None`) is modelled as returning `Option`, with
  `none` for the failing executions.
* Fields of the Rust structs that only feed the host display (the PPU
  framebuffer and display buffer, profiling, logging) are omitted: no
  claim-relevant observable reads them.
-/

set_option linter.unusedVariables false

namespace Rustgb

/-- Pointwise update of a byte array modelled as a function. -/
def upd (f : Nat → Nat) (i v : Nat) : Nat → Nat :=
  fun j => if j = i then v else f j

/-! ## Flags (src/lib.rs, bitflags `Flags`) -/

/-- Flags::CARRY = 1 << 4. -/
def fCARRY : Nat := 0x10
/-- Flags::SUBTRACT = 1 << 6. -/
def fSUBTRACT : Nat := 0x40
/-- Flags::HALF_CARRY = 1 << 5. -/
def fHALF_CARRY : Nat := 0x20
/-- Flags::ZERO = 1 << 7. -/
def fZERO : Nat := 0x80

/-- bitflags `set`: insert the mask when the condition holds, remove it
otherwise (flag bytes are < 256). -/
def fset (f mask : Nat) (b : Bool) : Nat :=
  if b then f ||| mask else f &&& (0xFF ^^^ mask)

/-- bitflags `contains` for the single-bit masks used by the code. -/
def fcontains (f mask : Nat) : Bool :=
  f &&& mask == mask

/-- bitflags `insert`. -/
def finsert (f mask : Nat) : Nat := f ||| mask

/-- bitflags `toggle`. -/
def ftoggle (f mask : Nat) : Nat := f ^^^ mask

/-- `Flags::from_bits(b).unwrap()` as used in `RegisterPairValue::flags`:
the known bits are 0xF0, so the unwrap fails (modelled `none`) exactly when
one of the four low bits of F is set. -/
def flagsFromBits (b : Nat) : Option Nat :=
  if b &&& 0x0F = 0 then some b else none

/-! ## RegisterPairValue (src/memory.rs) -/

/-- A 16-bit register pair stored as two bytes, as in `RegisterPairValue`. -/
structure RegisterPairValue where
  high : Nat
  low : Nat
  deriving Repr

/-- `RegisterPairValue::as_u16`: big-endian recombination. -/
def RegisterPairValue.asU16 (r : RegisterPairValue) : Nat :=
  r.high * 256 + r.low

/-- `impl From<u16> for RegisterPairValue`: `high = (value >> 8) as u8`,
`low = value as u8`. -/
def RegisterPairValue.fromU16 (v : Nat) : RegisterPairValue :=
  ⟨(v >>> 8) % 256, v % 256⟩

/-! ## Arithmetic helpers (src/arithmetic.rs)

Each Rust helper takes `&mut Flags`; the embedding takes the flag byte and
returns the pair (result, new flags). -/

/-- op_bit: test a bit, returning only the new flags. -/
def op_bit (index val f : Nat) : Nat :=
  let carry := fcontains f fCARRY
  let f1 := fset 0 fZERO (val &&& ((1 <<< index) % 256) == 0)
  let f2 := fset f1 fHALF_CARRY true
  fset f2 fCARRY carry

/-- op_res: clear a bit. -/
def op_res (index val : Nat) : Nat :=
  val &&& (0xFF ^^^ ((1 <<< index) % 256))

/-- op_set: set a bit. -/
def op_set (index val : Nat) : Nat :=
  val ||| ((1 <<< index) % 256)

/-- op_swap: `val.rotate_left(4)`. -/
def op_swap (val f : Nat) : Nat × Nat :=
  let result := ((val <<< 4) % 256) ||| (val >>> 4)
  let f1 := fset 0 fZERO (result == 0)
  (result, f1)

/-- op_rl: rotate left through carry; `is_rla` suppresses the Z flag. -/
def op_rl (val f : Nat) (is_rla : Bool) : Nat × Nat :=
  let carry := if fcontains f fCARRY then 1 else 0
  let result := ((val <<< 1) % 256) ||| carry
  let f1 := fset 0 fZERO (!is_rla && result == 0)
  let f2 := fset f1 fCARRY (val >>> 7 == 1)
  (result, f2)

/-- op_rlc: rotate left; `is_rlca` suppresses the Z flag. -/
def op_rlc (val f : Nat) (is_rlca : Bool) : Nat × Nat :=
  let carry := val >>> 7
  let result := ((val <<< 1) % 256) ||| (val >>> 7)
  let f1 := fset 0 fZERO (!is_rlca && result == 0)
  let f2 := fset f1 fCARRY (carry == 1)
  (result, f2)

/-- op_rr: rotate right through carry. Unlike op_rl / op_rlc / op_rrc it has
no flag suppressing Z, so Z is always set from the result. -/
def op_rr (val f : Nat) : Nat × Nat :=
  let carry := if fcontains f fCARRY then 1 else 0
  let result := ((carry <<< 7) ||| (val >>> 1))
  let f1 := fset 0 fZERO (result == 0)
  let f2 := fset f1 fCARRY (val &&& 1 == 1)
  (result, f2)

/-- op_rrc: rotate right; `is_rrca` suppresses the Z flag. -/
def op_rrc (val f : Nat) (is_rrca : Bool) : Nat × Nat :=
  let carry := val &&& 1
  let result := (val >>> 1) ||| ((val &&& 1) <<< 7)
  let f1 := fset 0 fZERO (!is_rrca && result == 0)
  let f2 := fset f1 fCARRY (carry == 1)
  (result, f2)

/-- op_sla: shift left arithmetic. -/
def op_sla (val f : Nat) : Nat × Nat :=
  let carry := val >>> 7
  let result := (val <<< 1) % 256
  let f1 := fset 0 fZERO (result == 0)
  let f2 := fset f1 fCARRY (carry == 1)
  (result, f2)

/-- op_sra: shift right arithmetic with sign extension. -/
def op_sra (val f : Nat) : Nat × Nat :=
  let carry := val &&& 1
  let result := (val &&& 0x80) ||| (val >>> 1)
  let f1 := fset 0 fZERO (result == 0)
  let f2 := fset f1 fCARRY (carry == 1)
  (result, f2)

/-- op_srl: shift right logical. -/
def op_srl (val f : Nat) : Nat × Nat :=
  let carry := val &&& 1
  let result := val >>> 1
  let f1 := fset 0 fZERO (result == 0)
  let f2 := fset f1 fCARRY (carry == 1)
  (result, f2)

/-- op_add16 (flags are updated in place, not reset). -/
def op_add16 (a b f : Nat) : Nat × Nat :=
  let result := (a + b) % 65536
  let f1 := fset f fHALF_CARRY ((a &&& 0xFFF) + (b &&& 0xFFF) > 0xFFF)
  let f2 := fset f1 fSUBTRACT false
  let f3 := fset f2 fCARRY (a + b > 0xFFFF)
  (result, f3)

/-! ## Register and operand codes (src/lib.rs) -/

/-- The seven 8-bit registers. -/
inductive Register | a | b | c | d | e | h | l
  deriving DecidableEq, Repr

/-- `Register::from_bits` (3-bit code; 110 is unmatched and fails). -/
def Register.from_bits : Nat → Nat → Nat → Option Register
  | 0, 0, 0 => some .b
  | 0, 0, 1 => some .c
  | 0, 1, 0 => some .d
  | 0, 1, 1 => some .e
  | 1, 0, 0 => some .h
  | 1, 0, 1 => some .l
  | 1, 1, 1 => some .a
  | _, _, _ => none

/-- Register pairs for arithmetic/loads. -/
inductive RegisterPair | bc | de | hl | sp
  deriving DecidableEq, Repr

/-- `RegisterPair::from_bits` (2-bit code). -/
def RegisterPair.from_bits : Nat → Nat → Option RegisterPair
  | 0, 0 => some .bc
  | 0, 1 => some .de
  | 1, 0 => some .hl
  | 1, 1 => some .sp
  | _, _ => none

/-- Register pairs for push/pop. -/
inductive RegisterPairStk | bc | de | hl | af
  deriving DecidableEq, Repr

/-- Register pairs for indirect loads (with post-inc/dec HL). -/
inductive RegisterPairMem | bc | de | hli | hld
  deriving DecidableEq, Repr

/-- `RegisterPairMem::from_bits` (2-bit code). -/
def RegisterPairMem.from_bits : Nat → Nat → Option RegisterPairMem
  | 0, 0 => some .bc
  | 0, 1 => some .de
  | 1, 0 => some .hli
  | 1, 1 => some .hld
  | _, _ => none

/-- Branch conditions (src/isa.rs). -/
inductive Condition | notZero | zero | notCarry | carry
  deriving DecidableEq, Repr

/-- `Condition::from_bits` (2-bit code). -/
def Condition.from_bits : Nat → Nat → Option Condition
  | 0, 0 => some .notZero
  | 0, 1 => some .zero
  | 1, 0 => some .notCarry
  | 1, 1 => some .carry
  | _, _ => none

/-! ## Instruction families (src/isa.rs)

Immediate bytes (`u8`, `i8`) are carried as the raw byte value (a `Nat`
< 256); `n16` immediates as a `Nat` < 65536. -/

/-- ArithmeticInstruction. -/
inductive ArithmeticInstruction
  | adcAR8 (r : Register) | adcAMemHL | adcAN8 (imm : Nat)
  | addAR8 (r : Register) | addAMemHL | addAN8 (imm : Nat)
  | andAR8 (r : Register) | andAMemHL | andAN8 (imm : Nat)
  | cpAR8 (r : Register) | cpAMemHL | cpAN8 (imm : Nat)
  | decR8 (r : Register) | decMemHL
  | incR8 (r : Register) | incMemHL
  | orAR8 (r : Register) | orAMemHL | orAN8 (imm : Nat)
  | sbcAR8 (r : Register) | sbcAMemHL | sbcAN8 (imm : Nat)
  | subAR8 (r : Register) | subAMemHL | subAN8 (imm : Nat)
  | xorAR8 (r : Register) | xorAMemHL | xorAN8 (imm : Nat)
  | addHLR16 (r : RegisterPair)
  | decR16 (r : RegisterPair)
  | incR16 (r : RegisterPair)
  deriving DecidableEq, Repr

/-- BitInstruction. -/
inductive BitInstruction
  | bit (i : Nat) (r : Register) | bitMemHL (i : Nat)
  | res (i : Nat) (r : Register) | resMemHL (i : Nat)
  | set (i : Nat) (r : Register) | setMemHL (i : Nat)
  | swap (r : Register) | swapMemHL
  | rl (r : Register) | rlMemHL | rla
  | rlc (r : Register) | rlcMemHL | rlca
  | rr (r : Register) | rrMemHL | rra
  | rrc (r : Register) | rrcMemHL | rrca
  | sla (r : Register) | slaMemHL
  | sra (r : Register) | sraMemHL
  | srl (r : Register) | srlMemHL
  deriving DecidableEq, Repr

/-- LoadInstruction. -/
inductive LoadInstruction
  | ldR8R8 (r1 r2 : Register)
  | ldR8N8 (r : Register) (imm : Nat)
  | ldR16N16 (r : RegisterPair) (imm : Nat)
  | ldMemHLR8 (r : Register)
  | ldMemHLN8 (imm : Nat)
  | ldR8MemHL (r : Register)
  | ldMemR16A (r : RegisterPairMem)
  | ldMemN16A (addr : Nat)
  | ldhMemN16A (addr : Nat)
  | ldhMemCA
  | ldAMemR16 (r : RegisterPairMem)
  | ldAMemN16 (addr : Nat)
  | ldhAMemN16 (addr : Nat)
  | ldhAMemC
  | ldMemHLIA | ldMemHLDA | ldAMemHLI | ldAMemHLD
  | ldhAMemN8 (addr : Nat)
  | ldhMemN8A (addr : Nat)
  deriving DecidableEq, Repr

/-- JumpInstruction. -/
inductive JumpInstruction
  | callN16 (imm : Nat)
  | callCCN16 (c : Condition) (imm : Nat)
  | jpHL
  | jpN16 (imm : Nat)
  | jpCCN16 (c : Condition) (imm : Nat)
  | jrN8 (imm : Nat)
  | jrCCN8 (c : Condition) (imm : Nat)
  | retCC (c : Condition)
  | ret
  | reti
  | rst (vec : Nat)
  deriving DecidableEq, Repr

/-- StackInstruction. -/
inductive StackInstruction
  | addHLSP
  | addSPE8 (imm : Nat)
  | decSP | incSP
  | ldSPN16 (imm : Nat)
  | ldMemN16SP (imm : Nat)
  | ldHLSPPlusE8 (imm : Nat)
  | ldSPHL
  | popAF
  | popR16 (r : RegisterPairStk)
  | pushAF
  | pushR16 (r : RegisterPairStk)
  deriving DecidableEq, Repr

/-- MiscInstruction. -/
inductive MiscInstruction
  | ccf | cpl | daA | di | ei | halt | nop | scf | stop
  deriving DecidableEq, Repr

/-- Instruction: the closed sum of the six families. -/
inductive Instruction
  | arith (x : ArithmeticInstruction)
  | bits (x : BitInstruction)
  | load (x : LoadInstruction)
  | jump (x : JumpInstruction)
  | stack (x : StackInstruction)
  | misc (x : MiscInstruction)
  deriving DecidableEq, Repr

/-! ## Interrupt lines (src/memory.rs) -/

/-- The five interrupt lines. -/
inductive Interrupt | vblank | lcdStat | timer | serial | joypad
  deriving DecidableEq, Repr

/-- `impl From<Interrupt> for u8`. -/
def Interrupt.toU8 : Interrupt → Nat
  | .vblank => 0b0001
  | .lcdStat => 0b0010
  | .timer => 0b0100
  | .serial => 0b1000
  | .joypad => 0b10000

/-- `impl From<u8> for Interrupt`: any value that is not exactly one of the
five single-bit patterns hits the panic arm, modelled as `none`. -/
def Interrupt.fromU8 : Nat → Option Interrupt
  | 0b0001 => some .vblank
  | 0b0010 => some .lcdStat
  | 0b0100 => some .timer
  | 0b1000 => some .serial
  | 0b10000 => some .joypad
  | _ => none

/-! ## CPU state (src/cpu.rs)

`Cpu<M>` is embedded at `M = LinearMemory<65536>` (the instantiation used by
the repository's CPU test harness): the memory is a total byte array indexed
by `u16`, plus the interrupt-enable and interrupt-request bytes of the
`Memory` trait. The `disassembler`, `last_cycle`, `recv` and `terminate`
fields carry no claim-relevant state and are omitted. -/

structure Cpu where
  af : RegisterPairValue
  bc : RegisterPairValue
  de : RegisterPairValue
  hl : RegisterPairValue
  sp : RegisterPairValue
  pc : RegisterPairValue
  mem : Nat → Nat
  intEnable : Nat
  intRequest : Nat
  ime : Bool
  stall : Nat
  halted : Bool
  diCtr : Nat
  eiCtr : Nat

/-- `Cpu::new` with `LinearMemory::new()` (all memory bytes zero). -/
def cpuNew : Cpu where
  af := .fromU16 (0x0100 ||| 0x80)
  bc := .fromU16 0x0013
  de := .fromU16 0x00D8
  hl := .fromU16 0x014D
  sp := .fromU16 0xFFFE
  pc := .fromU16 0x0100
  mem := fun _ => 0
  intEnable := 0
  intRequest := 0
  ime := false
  stall := 0
  halted := false
  diCtr := 0
  eiCtr := 0

/-- `Cpu::register`. -/
def Cpu.reg (s : Cpu) : Register → Nat
  | .a => s.af.high
  | .b => s.bc.high
  | .c => s.bc.low
  | .d => s.de.high
  | .e => s.de.low
  | .h => s.hl.high
  | .l => s.hl.low

/-- `Cpu::register_mut` followed by an assignment. -/
def Cpu.setReg (s : Cpu) (r : Register) (v : Nat) : Cpu :=
  match r with
  | .a => {s with af := ⟨v, s.af.low⟩}
  | .b => {s with bc := ⟨v, s.bc.low⟩}
  | .c => {s with bc := ⟨s.bc.high, v⟩}
  | .d => {s with de := ⟨v, s.de.low⟩}
  | .e => {s with de := ⟨s.de.high, v⟩}
  | .h => {s with hl := ⟨v, s.hl.low⟩}
  | .l => {s with hl := ⟨s.hl.high, v⟩}

/-- `Cpu::register_pair`. -/
def Cpu.rp (s : Cpu) : RegisterPair → RegisterPairValue
  | .bc => s.bc
  | .de => s.de
  | .hl => s.hl
  | .sp => s.sp

/-- `Cpu::register_pair_mut` followed by an assignment. -/
def Cpu.setRp (s : Cpu) (r : RegisterPair) (v : RegisterPairValue) : Cpu :=
  match r with
  | .bc => {s with bc := v}
  | .de => {s with de := v}
  | .hl => {s with hl := v}
  | .sp => {s with sp := v}

/-- `Cpu::register_pair_stk`. -/
def Cpu.rpStk (s : Cpu) : RegisterPairStk → RegisterPairValue
  | .bc => s.bc
  | .de => s.de
  | .hl => s.hl
  | .af => s.af

/-- `Cpu::register_pair_stk_mut` followed by an assignment. -/
def Cpu.setRpStk (s : Cpu) (r : RegisterPairStk) (v : RegisterPairValue) : Cpu :=
  match r with
  | .bc => {s with bc := v}
  | .de => {s with de := v}
  | .hl => {s with hl := v}
  | .af => {s with af := v}

/-- `Cpu::push`: SP decreases by 2 (wrapping), the low byte of the value is
written at the new SP and the high byte at SP+1. -/
def Cpu.push (s : Cpu) (value : Nat) : Cpu :=
  let sp1 := RegisterPairValue.fromU16 ((s.sp.asU16 + 65534) % 65536)
  let m1 := upd s.mem sp1.asU16 (value % 256)
  let m2 := upd m1 ((sp1.asU16 + 1) % 65536) ((value >>> 8) % 256)
  {s with sp := sp1, mem := m2}

/-- `Cpu::pop`: reads the low byte at SP and the high byte at SP+1, then
increments SP by 2 (wrapping). -/
def Cpu.pop (s : Cpu) : Nat × Cpu :=
  let lo := s.mem s.sp.asU16
  let hi := s.mem ((s.sp.asU16 + 1) % 65536)
  let s1 := {s with sp := RegisterPairValue.fromU16 ((s.sp.asU16 + 2) % 65536)}
  ((hi <<< 8) ||| lo, s1)

/-- `Cpu::handle_interrupt`. `Interrupt::from` on the full triggered byte
panics (none) unless exactly one of the five interrupt bits is set. -/
def Cpu.handleInterrupt (s : Cpu) : Option Cpu :=
  if !s.ime && !s.halted then some s
  else
    let triggered := s.intEnable &&& s.intRequest
    if triggered = 0 then some s
    else
      let s := {s with halted := false}
      if !s.ime then some s
      else
        let requested := s.intRequest
        let enabled := s.intEnable
        (Interrupt.fromU8 (requested &&& enabled)).map fun i =>
          let s := {s with ime := false}
          let s := s.push s.pc.asU16
          let s :=
            match i with
            | .vblank =>
                {s with intRequest := s.intRequest &&& (0xFF ^^^ 0b0001),
                        pc := .fromU16 0x0040}
            | .lcdStat =>
                {s with intRequest := s.intRequest &&& (0xFF ^^^ 0b0010),
                        pc := .fromU16 0x0048}
            | .timer =>
                {s with intRequest := s.intRequest &&& (0xFF ^^^ 0b0100),
                        pc := .fromU16 0x0050}
            | .serial =>
                {s with intRequest := s.intRequest &&& (0xFF ^^^ 0b1000),
                        pc := .fromU16 0x0058}
            | .joypad =>
                {s with intRequest := s.intRequest &&& (0xFF ^^^ 0b10000),
                        pc := .fromU16 0x0060}
          {s with stall := s.stall + 4}

/-- `Cpu::eval_cond`; `af.flags()` unwraps `Flags::from_bits`, failing when a
low bit of F is set. -/
def Cpu.evalCond (s : Cpu) (c : Condition) : Option Bool :=
  (flagsFromBits s.af.low).map fun f =>
    match c with
    | .notZero => !(fcontains f fZERO)
    | .zero => fcontains f fZERO
    | .notCarry => !(fcontains f fCARRY)
    | .carry => fcontains f fCARRY

/-- Sign extension of an `i8` (carried as its raw byte) to `u16`,
as in `imm as u16` on an `i8`. -/
def i8AsU16 (b : Nat) : Nat :=
  if b < 128 then b else 0xFF00 + b

/-- `Cpu::eval_jump`. -/
def Cpu.evalJump (s : Cpu) : JumpInstruction → Option Cpu
  | .callN16 imm =>
      let s := s.push s.pc.asU16
      some {s with pc := .fromU16 imm, stall := 5}
  | .callCCN16 c imm =>
      (s.evalCond c).map fun b =>
        if b then
          let s := s.push s.pc.asU16
          {s with pc := .fromU16 imm, stall := 5}
        else {s with stall := 2}
  | .jpHL => some {s with pc := s.hl}
  | .jpN16 imm => some {s with pc := .fromU16 imm, stall := 3}
  | .jpCCN16 c imm =>
      (s.evalCond c).map fun b =>
        if b then {s with pc := .fromU16 imm, stall := 3}
        else {s with stall := 2}
  | .jrN8 imm =>
      some {s with pc := .fromU16 ((s.pc.asU16 + i8AsU16 imm) % 65536),
                   stall := 2}
  | .jrCCN8 c imm =>
      (s.evalCond c).map fun b =>
        if b then
          {s with pc := .fromU16 ((s.pc.asU16 + i8AsU16 imm) % 65536),
                  stall := 2}
        else {s with stall := 1}
  | .retCC c =>
      (s.evalCond c).map fun b =>
        if b then
          {(s.pop).2 with pc := .fromU16 (s.pop).1, stall := 4}
        else {s with stall := 1}
  | .ret =>
      some {(s.pop).2 with pc := .fromU16 (s.pop).1, stall := 3}
  | .reti =>
      some {(s.pop).2 with pc := .fromU16 (s.pop).1, ime := true, stall := 3}
  | .rst vec =>
      let s := s.push s.pc.asU16
      some {s with pc := .fromU16 vec, stall := 3}

/-- `Cpu::eval_stack`. `addr + 1` in `LdMemN16SP` is the release-mode
(wrapping) `u16` addition. -/
def Cpu.evalStack (s : Cpu) : StackInstruction → Option Cpu
  | .addHLSP =>
      (flagsFromBits s.af.low).map fun f =>
        let (v, f1) := op_add16 s.hl.asU16 s.sp.asU16 f
        {s with hl := .fromU16 v, af := ⟨s.af.high, f1⟩, stall := 1}
  | .addSPE8 imm =>
      let imm16 := i8AsU16 imm
      let f1 := fset 0 fHALF_CARRY ((s.sp.asU16 &&& 0x000F) + (imm16 &&& 0x000F) > 0x000F)
      let f2 := fset f1 fCARRY ((s.sp.asU16 &&& 0x00FF) + (imm16 &&& 0x00FF) > 0x00FF)
      some {s with af := ⟨s.af.high, f2⟩,
                   sp := .fromU16 ((s.sp.asU16 + imm16) % 65536), stall := 3}
  | .decSP =>
      some {s with sp := .fromU16 ((s.sp.asU16 + 65535) % 65536), stall := 1}
  | .incSP =>
      some {s with sp := .fromU16 ((s.sp.asU16 + 1) % 65536), stall := 1}
  | .ldSPN16 imm => some {s with sp := .fromU16 imm, stall := 2}
  | .ldMemN16SP imm =>
      let m1 := upd s.mem imm s.sp.low
      let m2 := upd m1 ((imm + 1) % 65536) s.sp.high
      some {s with mem := m2, stall := 4}
  | .ldHLSPPlusE8 imm =>
      let s := {s with hl := .fromU16 ((s.sp.asU16 + i8AsU16 imm) % 65536),
                       stall := 2}
      let f1 := fset 0 fZERO false
      let f2 := fset f1 fSUBTRACT false
      let f3 := fset f2 fHALF_CARRY ((s.sp.low &&& 0xF) + (imm &&& 0xF) > 0xF)
      let f4 := fset f3 fCARRY (s.sp.low + imm > 0x00FF)
      some {s with af := ⟨s.af.high, f4⟩}
  | .ldSPHL => some {s with sp := s.hl, stall := 1}
  | .popAF =>
      let af1 := RegisterPairValue.fromU16 (s.pop).1
      let f1 := fset 0 fZERO (af1.low &&& fZERO != 0)
      let f2 := fset f1 fSUBTRACT (af1.low &&& fSUBTRACT != 0)
      let f3 := fset f2 fHALF_CARRY (af1.low &&& fHALF_CARRY != 0)
      let f4 := fset f3 fCARRY (af1.low &&& fCARRY != 0)
      some {(s.pop).2 with af := ⟨af1.high, f4⟩, stall := 2}
  | .popR16 r =>
      some {((s.pop).2.setRpStk r (.fromU16 (s.pop).1)) with stall := 2}
  | .pushAF =>
      let s := s.push s.af.asU16
      some {s with stall := 3}
  | .pushR16 r =>
      let s :=
        match r with
        | .bc => s.push s.bc.asU16
        | .de => s.push s.de.asU16
        | .hl => s.push s.hl.asU16
        | .af => s.push s.af.asU16
      some {s with stall := 3}

/-- `Cpu::eval_bit`. The flag byte is read (fallibly) up front, `stall` is
set to 1 before dispatch, each arm yields the updated state and flag byte,
and the flags are written back to F at the end. -/
def Cpu.evalBit (s0 : Cpu) (i : BitInstruction) : Option Cpu :=
  (flagsFromBits s0.af.low).map fun f =>
    let s := {s0 with stall := 1}
    let step : Cpu × Nat :=
      match i with
      | .bit a r => (s, op_bit a (s.reg r) f)
      | .bitMemHL a => ({s with stall := 2}, op_bit a (s.mem s.hl.asU16) f)
      | .res a r => (s.setReg r (op_res a (s.reg r)), f)
      | .resMemHL a =>
          let prev := s.mem s.hl.asU16
          ({s with mem := upd s.mem s.hl.asU16 (op_res a prev), stall := 3}, f)
      | .set a r => (s.setReg r (op_set a (s.reg r)), f)
      | .setMemHL a =>
          let prev := s.mem s.hl.asU16
          ({s with mem := upd s.mem s.hl.asU16 (op_set a prev), stall := 3}, f)
      | .swap r =>
          let (v, f1) := op_swap (s.reg r) f
          ({s.setReg r v with stall := 1}, f1)
      | .swapMemHL =>
          let prev := s.mem s.hl.asU16
          let (v, f1) := op_swap prev f
          ({s with mem := upd s.mem s.hl.asU16 v, stall := 3}, f1)
      | .rl r =>
          let (v, f1) := op_rl (s.reg r) f false
          (s.setReg r v, f1)
      | .rlMemHL =>
          let prev := s.mem s.hl.asU16
          let (v, f1) := op_rl prev f false
          ({s with mem := upd s.mem s.hl.asU16 v, stall := 3}, f1)
      | .rla =>
          let (v, f1) := op_rl (s.reg .a) f true
          (s.setReg .a v, f1)
      | .rlc r =>
          let (v, f1) := op_rlc (s.reg r) f false
          (s.setReg r v, f1)
      | .rlcMemHL =>
          let prev := s.mem s.hl.asU16
          let (v, f1) := op_rlc prev f false
          ({s with mem := upd s.mem s.hl.asU16 v, stall := 3}, f1)
      | .rlca =>
          let (v, f1) := op_rlc (s.reg .a) f true
          (s.setReg .a v, f1)
      | .rr r =>
          let (v, f1) := op_rr (s.reg r) f
          (s.setReg r v, f1)
      | .rrMemHL =>
          let prev := s.mem s.hl.asU16
          let (v, f1) := op_rr prev f
          ({s with mem := upd s.mem s.hl.asU16 v, stall := 3}, f1)
      | .rra =>
          let (v, f1) := op_rr (s.reg .a) f
          (s.setReg .a v, f1)
      | .rrc r =>
          let (v, f1) := op_rrc (s.reg r) f false
          (s.setReg r v, f1)
      | .rrcMemHL =>
          let prev := s.mem s.hl.asU16
          let (v, f1) := op_rrc prev f false
          ({s with mem := upd s.mem s.hl.asU16 v, stall := 3}, f1)
      | .rrca =>
          let (v, f1) := op_rrc (s.reg .a) f true
          (s.setReg .a v, f1)
      | .sla r =>
          let (v, f1) := op_sla (s.reg r) f
          (s.setReg r v, f1)
      | .slaMemHL =>
          let prev := s.mem s.hl.asU16
          let (v, f1) := op_sla prev f
          ({s with mem := upd s.mem s.hl.asU16 v, stall := 3}, f1)
      | .sra r =>
          let (v, f1) := op_sra (s.reg r) f
          (s.setReg r v, f1)
      | .sraMemHL =>
          let prev := s.mem s.hl.asU16
          let (v, f1) := op_sra prev f
          ({s with mem := upd s.mem s.hl.asU16 v, stall := 3}, f1)
      | .srl r =>
          let (v, f1) := op_srl (s.reg r) f
          (s.setReg r v, f1)
      | .srlMemHL =>
          let prev := s.mem s.hl.asU16
          let (v, f1) := op_srl prev f
          ({s with mem := upd s.mem s.hl.asU16 v, stall := 3}, f1)
    {step.1 with af := ⟨step.1.af.high, step.2⟩}

/-- `RegisterPairStk::from_bits` (2-bit code). -/
def RegisterPairStk.from_bits : Nat → Nat → Option RegisterPairStk
  | 0, 0 => some .bc
  | 0, 1 => some .de
  | 1, 0 => some .hl
  | 1, 1 => some .af
  | _, _ => none

/-! ## Disassembler (src/disassembler.rs)

The `Disassembler` struct holds the byte vector and a cursor; the embedding
threads them explicitly and returns the decoded instruction together with
the cursor just past its last byte. Out-of-range `Vec` indexing in
`nom`/`nomnom` is a panic, hence `Option`. -/

/-- `Disassembler::nom`: one immediate byte. -/
def nom (bytes : List Nat) (cur : Nat) : Option Nat :=
  bytes.get? cur

/-- `Disassembler::nomnom`: a little-endian `n16` immediate
(`u16_from_bytes(bytes[cur+1], bytes[cur])`). -/
def nomnom (bytes : List Nat) (cur : Nat) : Option Nat := do
  let lo ← bytes.get? cur
  let hi ← bytes.get? (cur + 1)
  pure ((hi <<< 8) ||| lo)

/-- `Disassembler::bits_tup`: the eight bits of a byte, most significant
first. -/
def bits_tup (byte : Nat) : Nat × Nat × Nat × Nat × Nat × Nat × Nat × Nat :=
  ((byte >>> 7) &&& 1, (byte >>> 6) &&& 1, (byte >>> 5) &&& 1,
   (byte >>> 4) &&& 1, (byte >>> 3) &&& 1, (byte >>> 2) &&& 1,
   (byte >>> 1) &&& 1, byte &&& 1)

/-- `Disassembler::parse_prefix` (the 0xCB block). -/
def parseCB (bytes : List Nat) (cur : Nat) : Option (Instruction × Nat) := do
  let byte ← nom bytes cur
  let cur := cur + 1
  match bits_tup byte with
  | (0, 0, 0, 0, 0, 1, 1, 0) => pure (.bits .rlcMemHL, cur)
  | (0, 0, 0, 0, 0, a, b, c) => do
      let r ← Register.from_bits a b c; pure (.bits (.rlc r), cur)
  | (0, 0, 0, 0, 1, 1, 1, 0) => pure (.bits .rrcMemHL, cur)
  | (0, 0, 0, 0, 1, a, b, c) => do
      let r ← Register.from_bits a b c; pure (.bits (.rrc r), cur)
  | (0, 0, 0, 1, 0, 1, 1, 0) => pure (.bits .rlMemHL, cur)
  | (0, 0, 0, 1, 0, a, b, c) => do
      let r ← Register.from_bits a b c; pure (.bits (.rl r), cur)
  | (0, 0, 0, 1, 1, 1, 1, 0) => pure (.bits .rrMemHL, cur)
  | (0, 0, 0, 1, 1, a, b, c) => do
      let r ← Register.from_bits a b c; pure (.bits (.rr r), cur)
  | (0, 0, 1, 0, 0, 1, 1, 0) => pure (.bits .slaMemHL, cur)
  | (0, 0, 1, 0, 0, a, b, c) => do
      let r ← Register.from_bits a b c; pure (.bits (.sla r), cur)
  | (0, 0, 1, 0, 1, 1, 1, 0) => pure (.bits .sraMemHL, cur)
  | (0, 0, 1, 0, 1, a, b, c) => do
      let r ← Register.from_bits a b c; pure (.bits (.sra r), cur)
  | (0, 0, 1, 1, 0, 1, 1, 0) => pure (.bits .swapMemHL, cur)
  | (0, 0, 1, 1, 0, a, b, c) => do
      let r ← Register.from_bits a b c; pure (.bits (.swap r), cur)
  | (0, 0, 1, 1, 1, 1, 1, 0) => pure (.bits .srlMemHL, cur)
  | (0, 0, 1, 1, 1, a, b, c) => do
      let r ← Register.from_bits a b c; pure (.bits (.srl r), cur)
  | (0, 1, x, y, z, 1, 1, 0) =>
      pure (.bits (.bitMemHL ((x <<< 1) ||| (y <<< 2) ||| (z <<< 3))), cur)
  | (0, 1, x, y, z, a, b, c) => do
      let r ← Register.from_bits a b c
      pure (.bits (.bit ((x <<< 1) ||| (y <<< 2) ||| (z <<< 3)) r), cur)
  | (1, 0, x, y, z, 1, 1, 0) =>
      pure (.bits (.resMemHL ((x <<< 1) ||| (y <<< 2) ||| (z <<< 3))), cur)
  | (1, 0, x, y, z, a, b, c) => do
      let r ← Register.from_bits a b c
      pure (.bits (.res ((x <<< 1) ||| (y <<< 2) ||| (z <<< 3)) r), cur)
  | (1, 1, x, y, z, 1, 1, 0) =>
      pure (.bits (.setMemHL ((x <<< 1) ||| (y <<< 2) ||| (z <<< 3))), cur)
  | (1, 1, x, y, z, a, b, c) => do
      let r ← Register.from_bits a b c
      pure (.bits (.set ((x <<< 1) ||| (y <<< 2) ||| (z <<< 3)) r), cur)
  | _ => none

/-- `Disassembler::disassemble`: decode one instruction starting at `cur`.
The arms appear in source order; like the Rust `match`, the first matching
pattern wins. The source's `LdN16SP` variant is `LdMemN16SP` in the
instruction set module, the reachable `PopR16`/`PushR16` codes
(00, 01, 10) denote BC, DE, HL in both register-pair encodings, and the
2-bit operand of `LdMemR16A`/`LdAMemR16` is decoded into the
`RegisterPairMem` operand set that those load variants carry. -/
def disassemble (bytes : List Nat) (cur : Nat) : Option (Instruction × Nat) := do
  let byte ← nom bytes cur
  let cur := cur + 1
  match bits_tup byte with
  | (0, 0, 0, 0, 0, 0, 0, 0) => pure (.misc .nop, cur)
  | (0, 0, a, b, 0, 0, 0, 1) => do
      let rp ← RegisterPair.from_bits a b
      let imm ← nomnom bytes cur
      pure (.load (.ldR16N16 rp imm), cur + 2)
  | (0, 0, a, b, 0, 0, 1, 0) => do
      let rp ← RegisterPairMem.from_bits a b
      pure (.load (.ldMemR16A rp), cur)
  | (0, 0, a, b, 1, 0, 1, 0) => do
      let rp ← RegisterPairMem.from_bits a b
      pure (.load (.ldAMemR16 rp), cur)
  | (0, 0, 0, 0, 1, 0, 0, 0) => do
      let imm ← nomnom bytes cur
      pure (.stack (.ldMemN16SP imm), cur + 2)
  | (0, 0, a, b, 0, 0, 1, 1) => do
      let rp ← RegisterPair.from_bits a b
      pure (.arith (.incR16 rp), cur)
  | (0, 0, a, b, 1, 0, 1, 1) => do
      let rp ← RegisterPair.from_bits a b
      pure (.arith (.decR16 rp), cur)
  | (0, 0, a, b, 1, 0, 0, 1) => do
      let rp ← RegisterPair.from_bits a b
      pure (.arith (.addHLR16 rp), cur)
  | (0, 0, 1, 1, 0, 1, 0, 0) => pure (.arith .incMemHL, cur)
  | (0, 0, a, b, c, 1, 0, 0) => do
      let r ← Register.from_bits a b c
      pure (.arith (.incR8 r), cur)
  | (0, 0, 1, 1, 0, 1, 0, 1) => pure (.arith .decMemHL, cur)
  | (0, 0, a, b, c, 1, 0, 1) => do
      let r ← Register.from_bits a b c
      pure (.arith (.decR8 r), cur)
  | (0, 0, 1, 1, 0, 1, 1, 0) => do
      let imm ← nom bytes cur
      pure (.load (.ldMemHLN8 imm), cur + 1)
  | (0, 0, a, b, c, 1, 1, 0) => do
      let r ← Register.from_bits a b c
      let imm ← nom bytes cur
      pure (.load (.ldR8N8 r imm), cur + 1)
  | (0, 0, 0, 0, 0, 1, 1, 1) => pure (.bits .rlca, cur)
  | (0, 0, 0, 0, 1, 1, 1, 1) => pure (.bits .rrca, cur)
  | (0, 0, 0, 1, 0, 1, 1, 1) => pure (.bits .rla, cur)
  | (0, 0, 0, 1, 1, 1, 1, 1) => pure (.bits .rra, cur)
  | (0, 0, 1, 0, 0, 1, 1, 1) => pure (.misc .daA, cur)
  | (0, 0, 1, 0, 1, 1, 1, 1) => pure (.misc .cpl, cur)
  | (0, 0, 1, 1, 0, 1, 1, 1) => pure (.misc .scf, cur)
  | (0, 0, 1, 1, 1, 1, 1, 1) => pure (.misc .ccf, cur)
  | (0, 0, 0, 1, 1, 0, 0, 0) => do
      let imm ← nom bytes cur
      pure (.jump (.jrN8 imm), cur + 1)
  | (0, 0, 1, a, b, 0, 0, 0) => do
      let cc ← Condition.from_bits a b
      let imm ← nom bytes cur
      pure (.jump (.jrCCN8 cc imm), cur + 1)
  | (0, 0, 0, 1, 0, 0, 0, 0) => pure (.misc .stop, cur)
  | (0, 1, 1, 1, 0, 1, 1, 0) => pure (.misc .halt, cur)
  | (0, 1, 1, 1, 0, a, b, c) => do
      let r ← Register.from_bits a b c
      pure (.load (.ldMemHLR8 r), cur)
  | (0, 1, a, b, c, 1, 1, 0) => do
      let r ← Register.from_bits a b c
      pure (.load (.ldR8MemHL r), cur)
  | (0, 1, a, b, c, x, y, z) => do
      let r1 ← Register.from_bits a b c
      let r2 ← Register.from_bits x y z
      pure (.load (.ldR8R8 r1 r2), cur)
  | (1, 0, 0, 0, 0, 1, 1, 0) => pure (.arith .addAMemHL, cur)
  | (1, 0, 0, 0, 0, a, b, c) => do
      let r ← Register.from_bits a b c
      pure (.arith (.addAR8 r), cur)
  | (1, 0, 0, 0, 1, 1, 1, 0) => pure (.arith .adcAMemHL, cur)
  | (1, 0, 0, 0, 1, a, b, c) => do
      let r ← Register.from_bits a b c
      pure (.arith (.adcAR8 r), cur)
  | (1, 0, 0, 1, 0, 1, 1, 0) => pure (.arith .subAMemHL, cur)
  | (1, 0, 0, 1, 0, a, b, c) => do
      let r ← Register.from_bits a b c
      pure (.arith (.subAR8 r), cur)
  | (1, 0, 0, 1, 1, 1, 1, 0) => pure (.arith .sbcAMemHL, cur)
  | (1, 0, 0, 1, 1, a, b, c) => do
      let r ← Register.from_bits a b c
      pure (.arith (.sbcAR8 r), cur)
  | (1, 0, 1, 0, 0, 1, 1, 0) => pure (.arith .andAMemHL, cur)
  | (1, 0, 1, 0, 0, a, b, c) => do
      let r ← Register.from_bits a b c
      pure (.arith (.andAR8 r), cur)
  | (1, 0, 1, 0, 1, 1, 1, 0) => pure (.arith .xorAMemHL, cur)
  | (1, 0, 1, 0, 1, a, b, c) => do
      let r ← Register.from_bits a b c
      pure (.arith (.xorAR8 r), cur)
  | (1, 0, 1, 1, 0, 1, 1, 0) => pure (.arith .orAMemHL, cur)
  | (1, 0, 1, 1, 0, a, b, c) => do
      let r ← Register.from_bits a b c
      pure (.arith (.orAR8 r), cur)
  | (1, 0, 1, 1, 1, 1, 1, 0) => pure (.arith .cpAMemHL, cur)
  | (1, 0, 1, 1, 1, a, b, c) => do
      let r ← Register.from_bits a b c
      pure (.arith (.cpAR8 r), cur)
  | (1, 1, 0, 0, 0, 1, 1, 0) => do
      let imm ← nom bytes cur
      pure (.arith (.addAN8 imm), cur + 1)
  | (1, 1, 0, 0, 1, 1, 1, 0) => do
      let imm ← nom bytes cur
      pure (.arith (.adcAN8 imm), cur + 1)
  | (1, 1, 0, 1, 0, 1, 1, 0) => do
      let imm ← nom bytes cur
      pure (.arith (.subAN8 imm), cur + 1)
  | (1, 1, 0, 1, 1, 1, 1, 0) => do
      let imm ← nom bytes cur
      pure (.arith (.sbcAN8 imm), cur + 1)
  | (1, 1, 1, 0, 0, 1, 1, 0) => do
      let imm ← nom bytes cur
      pure (.arith (.andAN8 imm), cur + 1)
  | (1, 1, 1, 0, 1, 1, 1, 0) => do
      let imm ← nom bytes cur
      pure (.arith (.xorAN8 imm), cur + 1)
  | (1, 1, 1, 1, 0, 1, 1, 0) => do
      let imm ← nom bytes cur
      pure (.arith (.orAN8 imm), cur + 1)
  | (1, 1, 1, 1, 1, 1, 1, 0) => do
      let imm ← nom bytes cur
      pure (.arith (.cpAN8 imm), cur + 1)
  | (1, 1, 0, a, b, 0, 0, 0) => do
      let cc ← Condition.from_bits a b
      pure (.jump (.retCC cc), cur)
  | (1, 1, 0, 0, 1, 0, 0, 1) => pure (.jump .ret, cur)
  | (1, 1, 0, 1, 1, 0, 0, 1) => pure (.jump .reti, cur)
  | (1, 1, 0, a, b, 0, 1, 0) => do
      let cc ← Condition.from_bits a b
      let imm ← nomnom bytes cur
      pure (.jump (.jpCCN16 cc imm), cur + 2)
  | (1, 1, 0, 0, 0, 0, 1, 1) => do
      let imm ← nomnom bytes cur
      pure (.jump (.jpN16 imm), cur + 2)
  | (1, 1, 1, 0, 1, 0, 0, 1) => pure (.jump .jpHL, cur)
  | (1, 1, 0, a, b, 1, 0, 0) => do
      let cc ← Condition.from_bits a b
      let imm ← nomnom bytes cur
      pure (.jump (.callCCN16 cc imm), cur + 2)
  | (1, 1, 0, 0, 1, 1, 0, 1) => do
      let imm ← nomnom bytes cur
      pure (.jump (.callN16 imm), cur + 2)
  | (1, 1, a, b, c, 1, 1, 1) =>
      pure (.jump (.rst (c ||| (b <<< 1) ||| (a <<< 2))), cur)
  | (1, 1, 1, 1, 0, 0, 0, 1) => pure (.stack .popAF, cur)
  | (1, 1, a, b, 0, 0, 0, 1) => do
      let rp ← RegisterPairStk.from_bits a b
      pure (.stack (.popR16 rp), cur)
  | (1, 1, 1, 1, 0, 1, 0, 1) => pure (.stack .pushAF, cur)
  | (1, 1, a, b, 0, 1, 0, 1) => do
      let rp ← RegisterPairStk.from_bits a b
      pure (.stack (.pushR16 rp), cur)
  | (1, 1, 0, 0, 1, 0, 1, 1) => parseCB bytes cur
  | (1, 1, 1, 0, 0, 0, 1, 0) => pure (.load .ldhMemCA, cur)
  | (1, 1, 1, 0, 0, 0, 0, 0) => do
      let imm ← nom bytes cur
      pure (.load (.ldhMemN8A imm), cur + 1)
  | (1, 1, 1, 0, 1, 0, 1, 0) => do
      let imm ← nomnom bytes cur
      pure (.load (.ldMemN16A imm), cur + 2)
  | (1, 1, 1, 1, 0, 0, 1, 0) => pure (.load .ldhAMemC, cur)
  | (1, 1, 1, 1, 0, 0, 0, 0) => do
      let imm ← nom bytes cur
      pure (.load (.ldhAMemN8 imm), cur + 1)
  | (1, 1, 1, 1, 1, 0, 1, 0) => do
      let imm ← nomnom bytes cur
      pure (.load (.ldAMemN16 imm), cur + 2)
  | (1, 1, 1, 0, 1, 0, 0, 0) => do
      let imm ← nom bytes cur
      pure (.stack (.addSPE8 imm), cur + 1)
  | (1, 1, 1, 1, 1, 0, 0, 0) => do
      let imm ← nom bytes cur
      pure (.stack (.ldHLSPPlusE8 imm), cur + 1)
  | (1, 1, 1, 1, 1, 0, 0, 1) => pure (.stack .ldSPHL, cur)
  | (1, 1, 1, 1, 0, 0, 1, 1) => pure (.misc .di, cur)
  | (1, 1, 1, 1, 1, 0, 1, 1) => pure (.misc .ei, cur)
  | _ => none

/-! ## Timer (src/timer.rs) -/

/-- Timer state. `timer_countdown` is an `i32` in the source. -/
structure Timer where
  div : Nat
  tima : Nat
  tma : Nat
  tac : Nat
  divCountdown : Nat
  timerCountdown : Int
  deriving Repr, DecidableEq

/-- `Timer::new`. -/
def timerNew : Timer :=
  { div := 0, tima := 0, tma := 0, tac := 0,
    divCountdown := 64 * 4, timerCountdown := 0 }

/-- `Timer::cycle`, returning the updated state and the optional Timer
interrupt. The `unreachable!` arm of the TIMA-period match is the
`0b11` case (the scrutinee `tac &&& 0b11` is at most 3). -/
def Timer.cycle (t : Timer) : Timer × Option Interrupt :=
  let t :=
    if t.divCountdown = 0 then
      {t with divCountdown := 64 * 4, div := (t.div + 1) % 256}
    else
      {t with divCountdown := t.divCountdown - 1}
  let timerEnabled := t.tac &&& 0b100 == 0b100
  let (t, interrupt) :=
    if t.timerCountdown = 0 && timerEnabled then
      let t := {t with tima := (t.tima + 1) % 256}
      let (t, interrupt) :=
        if t.tima = 0 then ({t with tima := t.tma}, some Interrupt.timer)
        else (t, none)
      let duration : Int :=
        match t.tac &&& 0b11 with
        | 0b00 => 256
        | 0b01 => 4
        | 0b10 => 16
        | _ => 64
      ({t with timerCountdown := duration * 4}, interrupt)
    else (t, none)
  if timerEnabled then
    ({t with timerCountdown := t.timerCountdown - 1}, interrupt)
  else (t, interrupt)

/-- `Timer::read`; addresses outside 0xFF04..0xFF07 are unreachable. -/
def Timer.read (t : Timer) (addr : Nat) : Option Nat :=
  if addr = 0xFF04 then some t.div
  else if addr = 0xFF05 then some t.tima
  else if addr = 0xFF06 then some t.tma
  else if addr = 0xFF07 then some t.tac
  else none

/-- `Timer::write`; a write to 0xFF04 resets DIV to 0. -/
def Timer.write (t : Timer) (addr value : Nat) : Option Timer :=
  if addr = 0xFF04 then some {t with div := 0}
  else if addr = 0xFF05 then some {t with tima := value}
  else if addr = 0xFF06 then some {t with tma := value}
  else if addr = 0xFF07 then some {t with tac := value}
  else none

/-! ## Joypad (src/joypad.rs) -/

/-- Joypad state (the pressed bits are active-low). -/
structure Joypad where
  data : Nat
  buttons : Nat
  dpad : Nat
  interrupt : Nat
  deriving Repr, DecidableEq

/-- `Joypad::new`. -/
def joypadNew : Joypad :=
  { data := 0xFF, buttons := 0x0F, dpad := 0x0F, interrupt := 0 }

/-- `Joypad::read`. -/
def Joypad.read (j : Joypad) : Nat :=
  if j.data &&& 0x20 = 0 then j.buttons
  else if j.data &&& 0x10 = 0 then j.dpad
  else 0xFF

/-- `Joypad::update`: recompute the low nibble from the selected groups and
latch a falling-edge interrupt. -/
def Joypad.update (j : Joypad) : Joypad :=
  let oldData := j.data &&& 0xF
  let newData := 0xF
  let newData := if j.data &&& 0x10 = 0 then newData &&& j.dpad else newData
  let newData := if j.data &&& 0x20 = 0 then newData &&& j.buttons else newData
  let j := if oldData = 0xF && newData ≠ 0xF then {j with interrupt := 1} else j
  {j with data := (j.data &&& 0xF0) ||| newData}

/-- `Joypad::write`: only bits 5-4 of the written value are kept. -/
def Joypad.write (j : Joypad) (value : Nat) : Joypad :=
  Joypad.update {j with data := (j.data &&& 0xCF) ||| (value &&& 0x30)}

/-! ## Serial port (src/serial.rs) -/

/-- Serial state (SB = data, SC = control). -/
structure Serial where
  data : Nat
  control : Nat
  deriving Repr, DecidableEq

/-- `Serial::default` (derived `Default`: both bytes zero). -/
def serialNew : Serial := { data := 0, control := 0 }

/-- `Serial::write`; other addresses panic. -/
def Serial.write (s : Serial) (addr value : Nat) : Option Serial :=
  if addr = 0xFF01 then some {s with data := value}
  else if addr = 0xFF02 then some {s with control := value}
  else none

/-- `Serial::read`; SC reads OR in 0x7E; other addresses panic. -/
def Serial.read (s : Serial) (addr : Nat) : Option Nat :=
  if addr = 0xFF01 then some s.data
  else if addr = 0xFF02 then some (s.control ||| 0b01111110)
  else none

/-! ## PPU (src/ppu.rs)

The framebuffer, display buffer and `show_vram` rendering path only feed the
host display: `render_scanline`, `post_frame` and `clear_framebuffer` write
nothing that any other PPU observable reads, so those fields are omitted and
the calls are no-ops here. Everything else in the `Ppu` struct is kept. -/

/-- A bool as the `u8` 0/1 it casts to. -/
def b2n (b : Bool) : Nat := if b then 1 else 0

/-- The four PPU modes. -/
inductive PpuMode | oamScan | drawingPixels | hblank | vblank
  deriving DecidableEq, Repr

/-- The enum discriminants (`OamScan = 2`, `DrawingPixels = 3`,
`HBlank = 0`, `VBlank = 1`). -/
def PpuMode.toU8 : PpuMode → Nat
  | .oamScan => 2
  | .drawingPixels => 3
  | .hblank => 0
  | .vblank => 1

/-- A 4-entry palette. -/
structure Palette where
  id0 : Nat
  id1 : Nat
  id2 : Nat
  id3 : Nat

/-- `Palette::default`. -/
def paletteDefault : Palette := ⟨0, 1, 2, 3⟩

/-- A tile: 16 raw bytes plus the decoded 8x8 array of 2-bit pixel
indices, both as index functions. -/
structure Tile where
  raw : Nat → Nat
  pixels : Nat → Nat

/-- `Tile::convert_to_pixels`: pixel `8*row + i` combines bit `i` of the
row's two bitplane bytes (low plane at `raw[2*row]`, high plane at
`raw[2*row+1]`). -/
def convertToPixels (raw : Nat → Nat) : Nat → Nat :=
  fun p =>
    let row := p / 8
    let i := p % 8
    let lsbBit := (raw (2 * row) >>> i) &&& 1
    let msbBit := (raw (2 * row + 1) >>> i) &&& 1
    (msbBit <<< 1) ||| lsbBit

/-- `Tile::from_raw`. -/
def Tile.fromRaw (raw : Nat → Nat) : Tile :=
  ⟨raw, convertToPixels raw⟩

/-- `Tile::set_byte`: asserts `index < 16`, stores the raw byte and
re-decodes the pixel array. -/
def Tile.setByte (t : Tile) (index value : Nat) : Option Tile :=
  if index < 16 then
    let raw1 := upd t.raw index value
    some ⟨raw1, convertToPixels raw1⟩
  else none

/-- PPU state. -/
structure Ppu where
  showVram : Bool
  mode : PpuMode
  modeCounter : Nat
  vram : Nat → Nat
  oam : Nat → Nat
  line : Nat
  lyc : Nat
  bgWinEnable : Bool
  objEnable : Bool
  objSize : Nat
  bgTileMap : Bool
  bgWinTileData : Bool
  winEnable : Bool
  winTileMap : Bool
  lcdEnable : Bool
  mode0Int : Bool
  mode1Int : Bool
  mode2Int : Bool
  lycInt : Bool
  viewportX : Nat
  viewportY : Nat
  bgPalette : Palette
  objPalette0 : Palette
  objPalette1 : Palette
  windowX : Nat
  windowY : Nat
  tiles : Nat → Tile
  tileMap0 : Nat → Nat
  tileMap1 : Nat → Nat
  hblank : Bool
  vblank : Bool
  winYTrigger : Bool
  interrupt : Nat

/-- `Ppu::new`. -/
def ppuNew : Ppu where
  showVram := false
  mode := .hblank
  modeCounter := 0
  vram := fun _ => 0
  oam := fun _ => 0
  line := 0
  lyc := 0
  bgWinEnable := false
  objEnable := false
  objSize := 8
  bgTileMap := false
  bgWinTileData := false
  winEnable := false
  winTileMap := false
  lcdEnable := false
  mode0Int := false
  mode1Int := false
  mode2Int := false
  lycInt := false
  viewportX := 0
  viewportY := 0
  bgPalette := paletteDefault
  objPalette0 := paletteDefault
  objPalette1 := paletteDefault
  windowX := 0
  windowY := 255
  tiles := fun _ => Tile.fromRaw (fun _ => 0)
  tileMap0 := fun _ => 0
  tileMap1 := fun _ => 0
  hblank := false
  vblank := false
  winYTrigger := false
  interrupt := 0

/-- `Ppu::set_mode`: returns the updated PPU and the interrupt bits raised
by the transition. The `render_scanline` / `post_frame` calls only write the
(omitted) framebuffer and display buffer. -/
def Ppu.setMode (p : Ppu) (m : PpuMode) : Ppu × Nat :=
  let p := {p with mode := m, vblank := false, hblank := false}
  match m with
  | .oamScan =>
      (p, if p.mode2Int then Interrupt.toU8 .lcdStat else 0)
  | .drawingPixels =>
      let p :=
        if p.winEnable && !p.winYTrigger && p.line == p.windowY then
          {p with winYTrigger := true, windowY := 255}
        else p
      (p, 0)
  | .hblank =>
      ({p with hblank := true},
       if p.mode0Int then Interrupt.toU8 .lcdStat else 0)
  | .vblank =>
      ({p with winYTrigger := false, vblank := true},
       if p.mode1Int then Interrupt.toU8 .lcdStat ||| Interrupt.toU8 .vblank
       else Interrupt.toU8 .vblank)

/-- The LYC-compare statement inside `Ppu::cycle`'s rollover block: raise
the LCD-STAT interrupt when the (already advanced) LY matches LYC. -/
def Ppu.lycCheck (p : Ppu) : Ppu :=
  if p.lycInt && p.line == p.lyc then
    {p with interrupt := p.interrupt ||| Interrupt.toU8 .lcdStat}
  else p

/-- The VBLANK-entry statement inside `Ppu::cycle`'s rollover block. -/
def Ppu.vblankEntry (p : Ppu) : Ppu :=
  if 144 ≤ p.line && p.mode ≠ .vblank then
    let qi := p.setMode .vblank
    {qi.1 with interrupt := qi.1.interrupt ||| qi.2}
  else p

/-- One guarded mode transition of `Ppu::cycle`'s visible-line dispatch:
`if self.mode != m { self.interrupt |= self.set_mode(m) }`. -/
def Ppu.enterMode (p : Ppu) (m : PpuMode) : Ppu :=
  if p.mode ≠ m then
    let qi := p.setMode m
    {qi.1 with interrupt := qi.1.interrupt ||| qi.2}
  else p

/-- The scanline/frame rollover block of `Ppu::cycle` (the body of its
`if self.mode_counter >= 114` statement, acting on the already incremented
counter): wrap the counter, advance LY, run the LYC compare, and enter
VBLANK when LY runs off the visible area. -/
def Ppu.cycleWrap (p : Ppu) : Ppu :=
  if 114 ≤ p.modeCounter then
    Ppu.vblankEntry (Ppu.lycCheck
      {p with modeCounter := p.modeCounter - 114,
              line := (p.line + 1) % 154})
  else p

/-- The visible-line mode dispatch block of `Ppu::cycle` (its trailing
`if self.line < 144` statement). -/
def Ppu.cycleModes (p : Ppu) : Ppu :=
  if p.line < 144 then
    if p.modeCounter ≤ 20 then p.enterMode .oamScan
    else if p.modeCounter ≤ 63 then p.enterMode .drawingPixels
    else p.enterMode .hblank
  else p

/-- `Ppu::cycle`: increment the intra-scanline counter, run the rollover
block, then the visible-line mode dispatch, exactly as the source statements
follow one another. -/
def Ppu.cycle (p : Ppu) : Ppu :=
  Ppu.cycleModes (Ppu.cycleWrap {p with modeCounter := p.modeCounter + 1})

/-- `Ppu::read`; unhandled addresses panic. -/
def Ppu.read (p : Ppu) (addr : Nat) : Option Nat :=
  if addr = 0xff40 then
    some ((b2n p.lcdEnable <<< 7) ||| (b2n p.winTileMap <<< 6) |||
          (b2n p.winEnable <<< 5) ||| (b2n p.bgWinTileData <<< 4) |||
          (b2n p.bgTileMap <<< 3) ||| (b2n (p.objSize ≠ 8) <<< 2) |||
          (b2n p.objEnable <<< 1) ||| b2n p.bgWinEnable)
  else if addr = 0xff41 then
    some ((b2n p.lycInt <<< 6) ||| (b2n p.mode2Int <<< 5) |||
          (b2n p.mode1Int <<< 4) ||| (b2n p.mode0Int <<< 3) |||
          (b2n p.lycInt <<< 2) ||| p.mode.toU8)
  else if addr = 0xff42 then some p.viewportY
  else if addr = 0xff43 then some p.viewportX
  else if addr = 0xff44 then some p.line
  else if addr = 0xff45 then some p.lyc
  else if addr = 0xff47 then
    some (p.bgPalette.id0 ||| (p.bgPalette.id1 <<< 2) |||
          (p.bgPalette.id2 <<< 4) ||| (p.bgPalette.id3 <<< 6))
  else if addr = 0xff48 then
    some (p.objPalette0.id0 ||| (p.objPalette0.id1 <<< 2) |||
          (p.objPalette0.id2 <<< 4) ||| (p.objPalette0.id3 <<< 6))
  else if addr = 0xff49 then
    some (p.objPalette1.id0 ||| (p.objPalette1.id1 <<< 2) |||
          (p.objPalette1.id2 <<< 4) ||| (p.objPalette1.id3 <<< 6))
  else if addr = 0xff4a then some p.windowY
  else if addr = 0xff4b then some p.windowX
  else if 0x8000 ≤ addr ∧ addr ≤ 0x9fff then some (p.vram (addr - 0x8000))
  else if 0xFE00 ≤ addr ∧ addr ≤ 0xFE9F then some (p.oam (addr - 0xFE00))
  else none

/-- `Ppu::write`; unhandled addresses (among them LY at 0xFF44) panic.
Writes to 0x8000-0x97FF update only the tile cache, not `vram`. -/
def Ppu.write (p : Ppu) (addr value : Nat) : Option Ppu :=
  if addr = 0xff40 then
    let initialLcdEnable := p.lcdEnable
    let p := {p with
      lcdEnable := value &&& 0b10000000 ≠ 0,
      winTileMap := value &&& 0b01000000 ≠ 0,
      winEnable := value &&& 0b00100000 ≠ 0,
      bgWinTileData := value &&& 0b00010000 ≠ 0,
      bgTileMap := value &&& 0b00001000 ≠ 0,
      objSize := if value &&& 0b00000100 ≠ 0 then 16 else 8,
      objEnable := value &&& 0b00000010 ≠ 0,
      bgWinEnable := value &&& 0b00000001 ≠ 0}
    let toggledLcdOff := initialLcdEnable && !p.lcdEnable
    some (if toggledLcdOff then
            {p with line := 0, mode := .oamScan, winYTrigger := false,
                    modeCounter := 0}
          else p)
  else if addr = 0xff41 then
    some {p with
      lycInt := value &&& 0b01000000 ≠ 0,
      mode2Int := value &&& 0b00100000 ≠ 0,
      mode1Int := value &&& 0b00010000 ≠ 0,
      mode0Int := value &&& 0b00001000 ≠ 0}
  else if addr = 0xff42 then some {p with viewportY := value}
  else if addr = 0xff43 then some {p with viewportX := value}
  else if addr = 0xff45 then
    let p := {p with lyc := value}
    some (if p.lycInt && p.line == p.lyc then
            {p with interrupt := p.interrupt ||| Interrupt.toU8 .lcdStat}
          else p)
  else if addr = 0xff47 then
    some {p with bgPalette :=
      ⟨value &&& 0b11, (value &&& 0b1100) >>> 2,
       (value &&& 0b110000) >>> 4, (value &&& 0b11000000) >>> 6⟩}
  else if addr = 0xff48 then
    some {p with objPalette0 :=
      ⟨value &&& 0b11, (value &&& 0b1100) >>> 2,
       (value &&& 0b110000) >>> 4, (value &&& 0b11000000) >>> 6⟩}
  else if addr = 0xff49 then
    some {p with objPalette1 :=
      ⟨value &&& 0b11, (value &&& 0b1100) >>> 2,
       (value &&& 0b110000) >>> 4, (value &&& 0b11000000) >>> 6⟩}
  else if addr = 0xff4a then some {p with windowY := value}
  else if addr = 0xff4b then some {p with windowX := value}
  else if 0x8000 ≤ addr ∧ addr ≤ 0x97ff then
    ((p.tiles ((addr - 0x8000) / 16)).setByte ((addr - 0x8000) % 16) value).map
      fun t =>
        {p with tiles := fun i => if i = (addr - 0x8000) / 16 then t
                                  else p.tiles i}
  else if 0x9800 ≤ addr ∧ addr ≤ 0x9bff then
    some {p with tileMap0 := upd p.tileMap0 (addr - 0x9800) value}
  else if 0x9c00 ≤ addr ∧ addr ≤ 0x9fff then
    some {p with tileMap1 := upd p.tileMap1 (addr - 0x9c00) value}
  else if 0xFE00 ≤ addr ∧ addr ≤ 0xFE9F then
    some {p with oam := upd p.oam (addr - 0xFE00) value}
  else none

/-! ## Bus (src/memory.rs, `MappedMemory<MBC>` at `MBC = RomOnlyMbc`)

`RomOnlyMbc` keeps only the ROM bytes: `read_rom` is a plain `Vec` index
(out of range is a panic) and `write` does nothing. Work RAM is
`[u8; 0x2000]` and high RAM `[u8; 0x7F]`. -/

/-- Bus state. -/
structure MappedMemory where
  rom : List Nat
  workRam : Nat → Nat
  highRam : Nat → Nat
  wramBank : Nat
  joypad : Joypad
  ppu : Ppu
  timer : Timer
  serial : Serial
  intEnable : Nat
  intRequest : Nat

/-- `MappedMemory::get`. Addresses strictly between 0xE000 and 0xFE00 are
first remapped down by 0x2000; the dispatch arms then follow the source's
match in order. Work-RAM indexing carries the `[u8; 0x2000]` bounds check
(so the residual address 0xE000, which the strict remap guard misses, is an
out-of-bounds panic). The unmatched remainder (among it 0xFEA0-0xFEFF)
panics. -/
def MappedMemory.get (s : MappedMemory) (addr : Nat) : Option Nat :=
  let addr := if 0xE000 < addr ∧ addr < 0xFE00 then addr - 0x2000 else addr
  if addr ≤ 0x7FFF ∨ (0xA000 ≤ addr ∧ addr ≤ 0xBFFF) then
    s.rom.get? addr
  else if (0x8000 ≤ addr ∧ addr ≤ 0x9FFF) ∨ (0xFE00 ≤ addr ∧ addr ≤ 0xFE9F) ∨
          (0xFF40 ≤ addr ∧ addr ≤ 0xFF4B) ∨ (0xFF68 ≤ addr ∧ addr ≤ 0xFF6B) then
    s.ppu.read addr
  else if (0xC000 ≤ addr ∧ addr ≤ 0xCFFF) ∨ (0xE000 ≤ addr ∧ addr ≤ 0xEFFF) then
    if addr - 0xC000 < 0x2000 then some (s.workRam (addr - 0xC000)) else none
  else if (0xD000 ≤ addr ∧ addr ≤ 0xDFFF) ∨ (0xF000 ≤ addr ∧ addr ≤ 0xFDFF) then
    let i := (s.wramBank * 0x1000) ||| (addr &&& 0x0FFF)
    if i < 0x2000 then some (s.workRam i) else none
  else if addr = 0xFF00 then some s.joypad.read
  else if 0xFF01 ≤ addr ∧ addr ≤ 0xFF02 then s.serial.read addr
  else if addr = 0xFF0F then some s.intRequest
  else if 0xFF04 ≤ addr ∧ addr ≤ 0xFF07 then s.timer.read addr
  else if 0xFF80 ≤ addr ∧ addr ≤ 0xFFFE then some (s.highRam (addr - 0xFF80))
  else if addr = 0xFFFF then some s.intEnable
  else none

/-- `MappedMemory::dma_transfer`: asserts the source page is at most 0xDF,
then copies 160 bytes read through the bus into OAM, one at a time. -/
def MappedMemory.dmaTransfer (s : MappedMemory) (value : Nat) :
    Option MappedMemory :=
  if value ≤ 0xDF then
    (List.range 0xa0).foldlM
      (fun st i =>
        (st.get ((value <<< 8) + i)).map fun c =>
          {st with ppu := {st.ppu with oam := upd st.ppu.oam i c}})
      s
  else none

/-- `MappedMemory::write`. Same remap and arm order as the source: ROM /
external-RAM writes go to the MBC (a no-op for `RomOnlyMbc`), 0xFF46
triggers OAM DMA, audio writes and 0xFEA0-0xFEFF are dropped, and the final
unmatched arm only logs a warning (also a no-op). The work-RAM bounds check
makes the write to the residual address 0xE000 a panic. -/
def MappedMemory.write (s : MappedMemory) (addr value : Nat) :
    Option MappedMemory :=
  let addr := if 0xE000 < addr ∧ addr < 0xFE00 then addr - 0x2000 else addr
  if addr ≤ 0x7FFF ∨ (0xA000 ≤ addr ∧ addr ≤ 0xBFFF) then some s
  else if addr = 0xFF46 then s.dmaTransfer value
  else if (0x8000 ≤ addr ∧ addr ≤ 0x9FFF) ∨ (0xFE00 ≤ addr ∧ addr ≤ 0xFE9F) ∨
          (0xFF40 ≤ addr ∧ addr ≤ 0xFF4B) ∨ (0xFF68 ≤ addr ∧ addr ≤ 0xFF6B) then
    (s.ppu.write addr value).map fun p => {s with ppu := p}
  else if (0xC000 ≤ addr ∧ addr ≤ 0xCFFF) ∨ (0xE000 ≤ addr ∧ addr ≤ 0xEFFF) then
    if addr - 0xC000 < 0x2000 then
      some {s with workRam := upd s.workRam (addr - 0xC000) value}
    else none
  else if (0xD000 ≤ addr ∧ addr ≤ 0xDFFF) ∨ (0xF000 ≤ addr ∧ addr ≤ 0xFDFF) then
    let i := (s.wramBank * 0x1000) ||| (addr &&& 0x0FFF)
    if i < 0x2000 then some {s with workRam := upd s.workRam i value}
    else none
  else if addr = 0xFF00 then some {s with joypad := s.joypad.write value}
  else if 0xFF01 ≤ addr ∧ addr ≤ 0xFF02 then
    (s.serial.write addr value).map fun x => {s with serial := x}
  else if 0xFF04 ≤ addr ∧ addr ≤ 0xFF07 then
    (s.timer.write addr value).map fun t => {s with timer := t}
  else if addr = 0xFF0F then some {s with intRequest := value}
  else if 0xFF10 ≤ addr ∧ addr ≤ 0xFF3F then some s
  else if 0xFF80 ≤ addr ∧ addr ≤ 0xFFFE then
    some {s with highRam := upd s.highRam (addr - 0xFF80) value}
  else if addr = 0xFFFF then some {s with intEnable := value}
  else if 0xFEA0 ≤ addr ∧ addr ≤ 0xFEFF then some s
  else some s

/-- The post-boot I/O register table written by `MappedMemory::new`, in
order. -/
def mmInitWrites : List (Nat × Nat) :=
  [(0xFF00, 0xCF), (0xFF01, 0x00), (0xFF02, 0x7E), (0xFF04, 0xAB),
   (0xFF05, 0x00), (0xFF06, 0x00), (0xFF07, 0xF8), (0xFF0F, 0xE1),
   (0xFF10, 0x80), (0xFF11, 0xBF), (0xFF12, 0xF3), (0xFF13, 0xFF),
   (0xFF14, 0xBF), (0xFF16, 0x3F), (0xFF17, 0x00), (0xFF18, 0xFF),
   (0xFF19, 0xBF), (0xFF1A, 0x7F), (0xFF1B, 0xFF), (0xFF1C, 0x9F),
   (0xFF1D, 0xFF), (0xFF1E, 0xBF), (0xFF20, 0xFF), (0xFF21, 0x00),
   (0xFF22, 0x00), (0xFF23, 0xBF), (0xFF24, 0x77), (0xFF25, 0xF3),
   (0xFF26, 0xF1), (0xFF40, 0x91), (0xFF41, 0x85), (0xFF42, 0x00),
   (0xFF43, 0x00), (0xFF45, 0x00), (0xFF47, 0xFC), (0xFF48, 0xFF),
   (0xFF49, 0xFF), (0xFF4A, 0x00), (0xFF4B, 0x00)]

/-- `MappedMemory::new`: zeroed RAM, work-RAM bank 1, no interrupts enabled
or requested, then the post-boot register writes through the bus. -/
def mmNew (rom : List Nat) (ppu : Ppu) (timer : Timer) : Option MappedMemory :=
  mmInitWrites.foldlM (fun s av => s.write av.1 av.2)
    { rom := rom, workRam := fun _ => 0, highRam := fun _ => 0, wramBank := 1,
      joypad := joypadNew, ppu := ppu, timer := timer, serial := serialNew,
      intEnable := 0, intRequest := 0 }

/-! ## Iterators and analysis helpers -/

/-- One `Timer::cycle` with the interrupt output discarded. -/
def timerStep : Timer → Timer := fun t => (Timer.cycle t).1

/-- n-fold `Timer::cycle` from `Timer::new`. -/
def timerIter (n : Nat) : Timer :=
  timerStep^[n] timerNew

/-- n-fold `Ppu::cycle` from `Ppu::new`. -/
def ppuIter (n : Nat) : Ppu :=
  Ppu.cycle^[n] ppuNew

/-- The mode `Ppu::cycle` pins on a visible line as a function of the
intra-scanline counter, read off the dispatch boundaries `<= 20` and
`<= 63`. -/
def sched (c : Nat) : PpuMode :=
  if c ≤ 20 then .oamScan else if c ≤ 63 then .drawingPixels else .hblank

/-- The stack instruction the decoder produces for PUSH r (the 0xF5 opcode
decodes to the dedicated PushAF variant). -/
def pushInstr : RegisterPairStk → StackInstruction
  | .af => .pushAF
  | .bc => .pushR16 .bc
  | .de => .pushR16 .de
  | .hl => .pushR16 .hl

/-- The stack instruction the decoder produces for POP r (the 0xF1 opcode
decodes to the dedicated PopAF variant). -/
def popInstr : RegisterPairStk → StackInstruction
  | .af => .popAF
  | .bc => .popR16 .bc
  | .de => .popR16 .de
  | .hl => .popR16 .hl

/-- A CPU about to dispatch with IME=1, IE=0x05 and both the VBlank and
Timer interrupts pending (IF=0x05), at PC=0x0200, SP=0xFFF0. -/
def cpuInt5 : Cpu :=
  {cpuNew with ime := true, intEnable := 0x05, intRequest := 0x05,
               pc := .fromU16 0x0200, sp := .fromU16 0xFFF0}

/-- The same CPU with only the Timer interrupt pending (IF=0x04). -/
def cpuInt4 : Cpu :=
  {cpuNew with ime := true, intEnable := 0x05, intRequest := 0x04,
               pc := .fromU16 0x0200, sp := .fromU16 0xFFF0}

/-- A plain bus state: empty ROM, zeroed RAM, power-on devices. Used to
instantiate universally quantified theorems at a concrete input. -/
def mmBase : MappedMemory :=
  { rom := [], workRam := fun _ => 0, highRam := fun _ => 0, wramBank := 1,
    joypad := joypadNew, ppu := ppuNew, timer := timerNew, serial := serialNew,
    intEnable := 0, intRequest := 0 }

/-! # Helper lemmas -/

/-- Joining a high part shifted by 8 with a byte is plain arithmetic. -/
theorem shiftLeft8_lor_eq_add (a b : Nat) (h : b < 256) :
    (a <<< 8) ||| b = 256 * a + b := by
  rw [Nat.shiftLeft_eq, Nat.mul_comm a (2 ^ 8)]
  rw [← Nat.mul_add_lt_is_or (by norm_num [h] : b < 2 ^ 8) a]

/-- The high byte of `RegisterPairValue::from`. -/
theorem fromU16_high (v : Nat) : (RegisterPairValue.fromU16 v).high =
    v / 256 % 256 := by
  simp [RegisterPairValue.fromU16, Nat.shiftRight_eq_div_pow]

/-- The low byte of `RegisterPairValue::from`. -/
theorem fromU16_low (v : Nat) : (RegisterPairValue.fromU16 v).low = v % 256 :=
  rfl

/-- `as_u16` after `from` is the identity on 16-bit values. -/
theorem fromU16_asU16 (v : Nat) (h : v < 65536) :
    (RegisterPairValue.fromU16 v).asU16 = v := by
  rw [RegisterPairValue.asU16, fromU16_high, fromU16_low]
  omega

/-- A `pop` directly after a `push` (with any `stall` charged in between)
returns the pushed 16-bit value and restores both SP bytes. -/
theorem wfPushPop (s : Cpu) (v k : Nat) (hv : v < 65536)
    (hh : s.sp.high < 256) (hl : s.sp.low < 256) :
    (({s.push v with stall := k}).pop).1 = v ∧
    (({s.push v with stall := k}).pop).2.sp.high = s.sp.high ∧
    (({s.push v with stall := k}).pop).2.sp.low = s.sp.low := by
  have hsp : s.sp.asU16 < 65536 := by
    rw [RegisterPairValue.asU16]; omega
  unfold Cpu.push Cpu.pop
  simp only [upd]
  set w := (s.sp.asU16 + 65534) % 65536 with hw
  have hw1 : w < 65536 := Nat.mod_lt _ (by norm_num)
  rw [fromU16_asU16 w hw1]
  have hne : ¬ w = (w + 1) % 65536 := by omega
  simp only [if_pos rfl, if_neg hne, if_true]
  have hsp2 : (w + 2) % 65536 = s.sp.asU16 := by omega
  refine ⟨?_, ?_, ?_⟩
  · rw [shiftLeft8_lor_eq_add _ _ (by omega)]
    rw [Nat.shiftRight_eq_div_pow]
    have h8 : (2 : Nat) ^ 8 = 256 := by norm_num
    rw [h8]
    omega
  · rw [fromU16_high, hsp2, RegisterPairValue.asU16]
    omega
  · rw [fromU16_low, hsp2, RegisterPairValue.asU16]
    omega

set_option maxRecDepth 4096 in
/-- The flag byte rebuilt by the `PopAF` arm equals the popped byte with its
low nibble cleared. -/
theorem popAF_flag_mask (l : Nat) (h : l < 256) :
    fset (fset (fset (fset 0 fZERO (l &&& fZERO != 0)) fSUBTRACT
      (l &&& fSUBTRACT != 0)) fHALF_CARRY (l &&& fHALF_CARRY != 0)) fCARRY
      (l &&& fCARRY != 0) = l &&& 0xF0 := by
  have hd : ∀ x : Fin 256,
      fset (fset (fset (fset 0 fZERO ((x : Nat) &&& fZERO != 0)) fSUBTRACT
        ((x : Nat) &&& fSUBTRACT != 0)) fHALF_CARRY
        ((x : Nat) &&& fHALF_CARRY != 0)) fCARRY
        ((x : Nat) &&& fCARRY != 0) = (x : Nat) &&& 0xF0 := by decide
  exact hd ⟨l, h⟩

/-- The `PushR16` arm of `eval_stack`, by cases on the register pair. -/
theorem es_pushR16 (s : Cpu) (r : RegisterPairStk) :
    s.evalStack (.pushR16 r) =
      some {s.push (s.rpStk r).asU16 with stall := 3} := by
  cases r <;> rfl

/-- The `PopR16` arm of `eval_stack`. -/
theorem es_popR16 (s : Cpu) (r : RegisterPairStk) :
    s.evalStack (.popR16 r) =
      some {((s.pop).2.setRpStk r (RegisterPairValue.fromU16 (s.pop).1))
        with stall := 2} := rfl

/-- The `PushAF` arm of `eval_stack`. -/
theorem es_pushAF (s : Cpu) :
    s.evalStack .pushAF = some {s.push s.af.asU16 with stall := 3} := rfl

/-- The `PopAF` arm of `eval_stack`. -/
theorem es_popAF (s : Cpu) :
    s.evalStack .popAF =
      some {(s.pop).2 with
        af := ⟨(RegisterPairValue.fromU16 (s.pop).1).high,
          fset (fset (fset (fset 0 fZERO
            ((RegisterPairValue.fromU16 (s.pop).1).low &&& fZERO != 0))
            fSUBTRACT
            ((RegisterPairValue.fromU16 (s.pop).1).low &&& fSUBTRACT != 0))
            fHALF_CARRY
            ((RegisterPairValue.fromU16 (s.pop).1).low &&& fHALF_CARRY != 0))
            fCARRY
            ((RegisterPairValue.fromU16 (s.pop).1).low &&& fCARRY != 0)⟩,
        stall := 2} := rfl

/-- Writing a stack register pair leaves SP unchanged. -/
theorem setRpStk_sp (s : Cpu) (r : RegisterPairStk) (v : RegisterPairValue) :
    (s.setRpStk r v).sp = s.sp := by
  cases r <;> rfl

/-- `set_mode` never touches the intra-scanline counter. -/
theorem setMode_fst_modeCounter (p : Ppu) (m : PpuMode) :
    (p.setMode m).1.modeCounter = p.modeCounter := by
  cases m <;> (simp [Ppu.setMode]; try split_ifs) <;> rfl

/-- `set_mode` never touches LY. -/
theorem setMode_fst_line (p : Ppu) (m : PpuMode) :
    (p.setMode m).1.line = p.line := by
  cases m <;> (simp [Ppu.setMode]; try split_ifs) <;> rfl

/-- `set_mode` pins the mode it is given. -/
theorem setMode_fst_mode (p : Ppu) (m : PpuMode) :
    (p.setMode m).1.mode = m := by
  cases m <;> (simp [Ppu.setMode]; try split_ifs) <;> rfl

/-- The LYC compare only raises an interrupt bit. -/
theorem lycCheck_mcl (p : Ppu) :
    (p.lycCheck).modeCounter = p.modeCounter ∧
    (p.lycCheck).line = p.line ∧ (p.lycCheck).mode = p.mode := by
  unfold Ppu.lycCheck; split_ifs <;> exact ⟨rfl, rfl, rfl⟩

/-- VBLANK entry: counter and LY are preserved and the mode becomes VBLANK
exactly on off-screen lines. -/
theorem vblankEntry_mcl (p : Ppu) :
    (p.vblankEntry).modeCounter = p.modeCounter ∧
    (p.vblankEntry).line = p.line ∧
    (p.vblankEntry).mode = (if 144 ≤ p.line then .vblank else p.mode) := by
  unfold Ppu.vblankEntry
  split_ifs with h <;>
    simp_all [setMode_fst_modeCounter, setMode_fst_line, setMode_fst_mode]

/-- A guarded mode transition pins the target mode and preserves the counter
and LY. -/
theorem enterMode_mcl (p : Ppu) (m : PpuMode) :
    (p.enterMode m).modeCounter = p.modeCounter ∧
    (p.enterMode m).line = p.line ∧ (p.enterMode m).mode = m := by
  unfold Ppu.enterMode
  split_ifs with h <;>
    simp_all [setMode_fst_modeCounter, setMode_fst_line, setMode_fst_mode]

/-- The rollover block of `Ppu::cycle` on counter, LY and mode. -/
theorem cycleWrap_mcl (p : Ppu) (hc : p.modeCounter ≤ 114) :
    (p.cycleWrap).modeCounter =
        (if p.modeCounter = 114 then 0 else p.modeCounter) ∧
    (p.cycleWrap).line =
        (if p.modeCounter = 114 then (p.line + 1) % 154 else p.line) ∧
    (p.cycleWrap).mode =
        (if p.modeCounter = 114 ∧ 144 ≤ (p.line + 1) % 154 then .vblank
         else p.mode) := by
  unfold Ppu.cycleWrap
  split_ifs with h1 <;>
    simp_all [(lycCheck_mcl _).1, (lycCheck_mcl _).2.1, (lycCheck_mcl _).2.2,
      (vblankEntry_mcl _).1, (vblankEntry_mcl _).2.1,
      (vblankEntry_mcl _).2.2] <;> omega

/-- The visible-line dispatch of `Ppu::cycle` on counter, LY and mode. -/
theorem cycleModes_mcl (p : Ppu) :
    (p.cycleModes).modeCounter = p.modeCounter ∧
    (p.cycleModes).line = p.line ∧
    (p.cycleModes).mode =
      (if p.line < 144 then sched p.modeCounter else p.mode) := by
  unfold Ppu.cycleModes sched
  split_ifs <;>
    simp_all [(enterMode_mcl _ _).1, (enterMode_mcl _ _).2.1,
      (enterMode_mcl _ _).2.2]

/-- One `Ppu::cycle` on counter, LY and mode, for a state that is in phase
(counter below 114, LY below 154, off-screen lines already in VBLANK). -/
theorem cycle_mcl (p : Ppu) (hc : p.modeCounter < 114) (hl : p.line < 154)
    (hm : 144 ≤ p.line → p.mode = PpuMode.vblank) :
    (p.cycle).modeCounter = (p.modeCounter + 1) % 114 ∧
    (p.cycle).line =
      (if p.modeCounter + 1 = 114 then (p.line + 1) % 154 else p.line) ∧
    (p.cycle).mode =
      (if (if p.modeCounter + 1 = 114 then (p.line + 1) % 154 else p.line)
          < 144
       then sched ((p.modeCounter + 1) % 114) else PpuMode.vblank) := by
  unfold Ppu.cycle
  obtain ⟨hq1, hq2, hq3⟩ :=
    cycleWrap_mcl {p with modeCounter := p.modeCounter + 1} (by simp; omega)
  obtain ⟨hr1, hr2, hr3⟩ :=
    cycleModes_mcl (Ppu.cycleWrap {p with modeCounter := p.modeCounter + 1})
  simp only at hq1 hq2 hq3
  rw [hr1, hq1, hr2, hq2, hr3, hq2, hq1, hq3]
  refine ⟨by split_ifs <;> omega, rfl, ?_⟩
  by_cases hw : p.modeCounter + 1 = 114
  · simp only [hw, if_pos rfl, if_true]
    by_cases h144 : (p.line + 1) % 154 < 144
    · rw [if_pos h144, if_pos h144]
    · rw [if_neg h144, if_neg h144]
      simp [Nat.le_of_not_lt h144]
  · simp only [hw, if_false]
    by_cases h144 : p.line < 144
    · rw [if_pos h144, if_pos h144]
      have hx : p.modeCounter + 1 = (p.modeCounter + 1) % 114 := by omega
      rw [← hx]
    · rw [if_neg h144, if_neg h144]
      have hv : p.mode = PpuMode.vblank := hm (by omega)
      simp [hv, hw]

/-- Closed form of the PPU state machine from power-on: after `n ≥ 1`
cycles the counter is `n % 114`, LY is `(n / 114) % 154`, and the mode
follows the `<= 20` / `<= 63` dispatch on visible lines and is VBLANK on
off-screen lines. -/
theorem ppuIter_mcl (n : Nat) (h : 1 ≤ n) :
    (ppuIter n).modeCounter = n % 114 ∧
    (ppuIter n).line = (n / 114) % 154 ∧
    (ppuIter n).mode =
      (if (n / 114) % 154 < 144 then sched (n % 114) else PpuMode.vblank) := by
  induction n with
  | zero => omega
  | succ m ih =>
    have hstep : ppuIter (m + 1) = Ppu.cycle (ppuIter m) := by
      unfold ppuIter
      rw [Function.iterate_succ_apply']
    rcases Nat.lt_or_ge m 1 with h1 | h1
    · have hm0 : m = 0 := by omega
      subst hm0
      refine ⟨by decide, by decide, by decide⟩
    · obtain ⟨i1, i2, i3⟩ := ih h1
      obtain ⟨c1, c2, c3⟩ := cycle_mcl (ppuIter m)
        (by rw [i1]; omega) (by rw [i2]; omega)
        (by intro hx
            rw [i3]
            rw [i2] at hx
            rw [if_neg (by omega)])
      rw [hstep]
      have e1 : ((ppuIter m).modeCounter + 1) % 114 = (m + 1) % 114 := by
        rw [i1]; omega
      have e2 : (if (ppuIter m).modeCounter + 1 = 114
                 then ((ppuIter m).line + 1) % 154 else (ppuIter m).line) =
                ((m + 1) / 114) % 154 := by
        rw [i1, i2]; split_ifs <;> omega
      exact ⟨by rw [c1, e1], by rw [c2, e2], by rw [c3, e2, e1]⟩

/-- One warm-up step of the DIV prescaler while the countdown is positive. -/
theorem timerStep_tick (k : Nat) :
    timerStep {timerNew with divCountdown := k + 1} =
      {timerNew with divCountdown := k} := by
  simp [timerStep, Timer.cycle, timerNew]

/-- During its first 256 cycles the timer only counts the DIV prescaler
down; DIV itself stays 0. -/
theorem timer_warmup (n : Nat) (h : n ≤ 256) :
    timerIter n = {timerNew with divCountdown := 256 - n} := by
  induction n with
  | zero => rfl
  | succ m ih =>
    have hstep : timerIter (m + 1) = timerStep (timerIter m) := by
      unfold timerIter
      rw [Function.iterate_succ_apply']
    rw [hstep, ih (by omega),
      show 256 - m = (256 - (m + 1)) + 1 by omega, timerStep_tick]

/-! # Claims -/

/-- C1: the interrupt pipeline is claimed to select the lowest-indexed
pending bit for every combination of pending bits. The code instead feeds
the whole `IE & IF` byte to `Interrupt::from`, which panics (`none`) as soon
as two bits are pending: with IME=1, IE=0x05 and IF=0x05 the dispatch
fails, where the claim demands VBlank (bit 0, vector 0x40). With a single
pending line (IF=0x04) the dispatch does behave as described: it clears
only that IF bit, clears IME, pushes PC (low byte at the new SP, high byte
at SP+1, SP down by 2), jumps to the vector and adds 4 to the stall counter
(the dispatch cycle plus these 4 stalled cycles being the 5 M-cycles). -/
theorem c1_interrupt_dispatch_panics_on_two_pending :
    Cpu.handleInterrupt cpuInt5 = none ∧
    (Cpu.handleInterrupt cpuInt4).map
      (fun c => (c.pc.asU16, c.sp.asU16, c.ime, c.intRequest, c.stall,
                 c.mem 0xFFEE, c.mem 0xFFEF)) =
      some (0x50, 0xFFEE, false, 0, 4, 0x00, 0x02) :=
  ⟨rfl, rfl⟩

/-- C2 counterexample: the claim says a bus write of v to a VRAM tile-data
address is returned by a subsequent bus read. On the freshly initialised
bus, writing 1 to 0x8000 and reading 0x8000 back yields the untouched VRAM
byte 0, not 1: `Ppu::write` only updates the tile cache. -/
theorem c2_vram_readback_counterexample :
    ((mmNew [] ppuNew timerNew).bind (fun s => s.write 0x8000 1)).bind
      (fun s => s.get 0x8000) = some 0 ∧
    ((mmNew [] ppuNew timerNew).bind (fun s => s.write 0x8000 1)).bind
      (fun s => s.get 0x8000) ≠ some 1 :=
  ⟨rfl, by decide⟩

set_option maxRecDepth 4096 in
/-- C2 (amended): a bus write of v to a in 0x8000-0x97FF stores v in the
affected tile's raw bytes and re-decodes that tile's 8x8 array of 2-bit
pixel indices, but leaves the separate raw-VRAM array untouched; a bus read
of a returns the unchanged prior VRAM byte, not v. -/
theorem c2_vram_write_updates_tile_cache_only (s : MappedMemory) (a v : Nat)
    (ha1 : 0x8000 ≤ a) (ha2 : a ≤ 0x97FF) :
    ∃ t, (s.ppu.tiles ((a - 0x8000) / 16)).setByte ((a - 0x8000) % 16) v
        = some t ∧
      t.raw = upd (s.ppu.tiles ((a - 0x8000) / 16)).raw ((a - 0x8000) % 16) v ∧
      t.pixels = convertToPixels
        (upd (s.ppu.tiles ((a - 0x8000) / 16)).raw ((a - 0x8000) % 16) v) ∧
      s.write a v = some {s with ppu := {s.ppu with
        tiles := fun i => if i = (a - 0x8000) / 16 then t
                          else s.ppu.tiles i}} ∧
      MappedMemory.get {s with ppu := {s.ppu with
        tiles := fun i => if i = (a - 0x8000) / 16 then t
                          else s.ppu.tiles i}} a
        = some (s.ppu.vram (a - 0x8000)) := by
  have hidx : (a - 0x8000) % 16 < 16 := Nat.mod_lt _ (by norm_num)
  refine ⟨⟨upd (s.ppu.tiles ((a - 0x8000) / 16)).raw ((a - 0x8000) % 16) v,
    convertToPixels (upd (s.ppu.tiles ((a - 0x8000) / 16)).raw
      ((a - 0x8000) % 16) v)⟩, ?_, ?_, ?_, ?_, ?_⟩
  · unfold Tile.setByte
    rw [if_pos hidx]
  · rfl
  · rfl
  · unfold MappedMemory.write
    rw [if_neg (show ¬(0xE000 < a ∧ a < 0xFE00) by omega)]
    rw [if_neg (by omega)]
    rw [if_neg (by omega)]
    rw [if_pos (by omega)]
    unfold Ppu.write
    rw [if_neg (by omega)]
    rw [if_neg (by omega)]
    rw [if_neg (by omega)]
    rw [if_neg (by omega)]
    rw [if_neg (by omega)]
    rw [if_neg (by omega)]
    rw [if_neg (by omega)]
    rw [if_neg (by omega)]
    rw [if_neg (by omega)]
    rw [if_neg (by omega)]
    rw [if_pos (by omega)]
    unfold Tile.setByte
    rw [if_pos hidx]
    rfl
  · unfold MappedMemory.get
    rw [if_neg (show ¬(0xE000 < a ∧ a < 0xFE00) by omega)]
    rw [if_neg (by omega)]
    rw [if_pos (by omega)]
    unfold Ppu.read
    rw [if_neg (by omega)]
    rw [if_neg (by omega)]
    rw [if_neg (by omega)]
    rw [if_neg (by omega)]
    rw [if_neg (by omega)]
    rw [if_neg (by omega)]
    rw [if_neg (by omega)]
    rw [if_neg (by omega)]
    rw [if_neg (by omega)]
    rw [if_neg (by omega)]
    rw [if_neg (by omega)]
    rw [if_pos (by omega)]

/-- C2 witness: the amended statement instantiated on the plain bus at
address 0x8000 with value 1. -/
theorem c2_vram_write_updates_tile_cache_only_witness :
    (0x8000 : Nat) ≤ 0x8000 ∧ (0x8000 : Nat) ≤ 0x97FF ∧
    (∃ t, (mmBase.ppu.tiles ((0x8000 - 0x8000) / 16)).setByte
        ((0x8000 - 0x8000) % 16) 1 = some t ∧
      t.raw = upd (mmBase.ppu.tiles ((0x8000 - 0x8000) / 16)).raw
        ((0x8000 - 0x8000) % 16) 1 ∧
      t.pixels = convertToPixels
        (upd (mmBase.ppu.tiles ((0x8000 - 0x8000) / 16)).raw
          ((0x8000 - 0x8000) % 16) 1) ∧
      mmBase.write 0x8000 1 = some {mmBase with ppu := {mmBase.ppu with
        tiles := fun i => if i = (0x8000 - 0x8000) / 16 then t
                          else mmBase.ppu.tiles i}} ∧
      MappedMemory.get {mmBase with ppu := {mmBase.ppu with
        tiles := fun i => if i = (0x8000 - 0x8000) / 16 then t
                          else mmBase.ppu.tiles i}} 0x8000
        = some (mmBase.ppu.vram (0x8000 - 0x8000))) :=
  ⟨by decide, by decide,
   c2_vram_write_updates_tile_cache_only mmBase 0x8000 1 (by decide)
     (by decide)⟩

/-- C3: the eight RST opcodes 0xC7, 0xCF, ..., 0xFF (bit pattern
11 a b c 111 with n = abc) are claimed to jump to the vectors 8*n =
0x00, 0x08, ..., 0x38. The decoder instead computes the vector as
`c | b << 1 | a << 2` = n itself, so the decoded targets are 0..7;
executing the decoded RST does push PC (low byte at the new SP, high at
SP+1) but then sets PC to n, e.g. 0x0007 instead of 0x0038 for opcode
0xFF. -/
theorem c3_rst_vector_not_scaled_by_8 :
    [0xC7, 0xCF, 0xD7, 0xDF, 0xE7, 0xEF, 0xF7, 0xFF].map
      (fun b => disassemble [b] 0) =
      [some (.jump (.rst 0), 1), some (.jump (.rst 1), 1),
       some (.jump (.rst 2), 1), some (.jump (.rst 3), 1),
       some (.jump (.rst 4), 1), some (.jump (.rst 5), 1),
       some (.jump (.rst 6), 1), some (.jump (.rst 7), 1)] ∧
    (Cpu.evalJump {cpuNew with pc := .fromU16 0x1234} (.rst 7)).map
      (fun c => (c.pc.asU16, c.sp.asU16, c.mem 0xFFFC, c.mem 0xFFFD,
                 c.stall)) =
      some (0x0007, 0xFFFC, 0x34, 0x12, 3) :=
  ⟨rfl, rfl⟩

/-- C4: the echo claim holds for offsets 1 <= k < 0x1E00 (shown here at
k = 1 and, through the banked arm, k = 0x1234), but at the boundary k = 0
both a read and a write of 0xE000 index `work_ram[0x2000]`, one past the
end of the 8 KiB array, and panic: the remap guard uses a strict
`addr > 0xE000`. -/
theorem c4_echo_boundary_k0_panics :
    (∀ s : MappedMemory, s.get 0xE000 = none) ∧
    (∀ (s : MappedMemory) (v : Nat), s.write 0xE000 v = none) ∧
    ((mmNew [] ppuNew timerNew).bind (fun s => s.write 0xC001 7)).bind
      (fun s => s.get 0xE001) = some 7 ∧
    ((mmNew [] ppuNew timerNew).bind (fun s => s.write 0xE001 8)).bind
      (fun s => s.get 0xC001) = some 8 ∧
    ((mmNew [] ppuNew timerNew).bind (fun s => s.write 0xF234 9)).bind
      (fun s => s.get 0xD234) = some 9 :=
  ⟨fun s => rfl, fun s v => rfl, rfl, rfl, rfl⟩

/-- C5: for every address in 0xFEA0-0xFEFF a bus write is silently dropped
(the state is returned unchanged), but a bus read falls through to the
panicking catch-all arm instead of returning 0xFF. -/
theorem c5_unusable_region_reads_panic (s : MappedMemory) (a v : Nat)
    (h1 : 0xFEA0 ≤ a) (h2 : a ≤ 0xFEFF) :
    s.get a = none ∧ s.write a v = some s := by
  constructor
  · unfold MappedMemory.get
    rw [if_neg (show ¬(0xE000 < a ∧ a < 0xFE00) by omega)]
    rw [if_neg (by omega)]
    rw [if_neg (by omega)]
    rw [if_neg (by omega)]
    rw [if_neg (by omega)]
    rw [if_neg (by omega)]
    rw [if_neg (by omega)]
    rw [if_neg (by omega)]
    rw [if_neg (by omega)]
    rw [if_neg (by omega)]
    rw [if_neg (by omega)]
  · unfold MappedMemory.write
    rw [if_neg (show ¬(0xE000 < a ∧ a < 0xFE00) by omega)]
    rw [if_neg (by omega)]
    rw [if_neg (by omega)]
    rw [if_neg (by omega)]
    rw [if_neg (by omega)]
    rw [if_neg (by omega)]
    rw [if_neg (by omega)]
    rw [if_neg (by omega)]
    rw [if_neg (by omega)]
    rw [if_neg (by omega)]
    rw [if_neg (by omega)]
    rw [if_neg (by omega)]
    rw [if_neg (by omega)]
    rw [if_pos (by omega)]

/-- C5 witness: the statement instantiated at address 0xFEA0 on the plain
bus. -/
theorem c5_unusable_region_reads_panic_witness :
    (0xFEA0 : Nat) ≤ 0xFEA0 ∧ (0xFEA0 : Nat) ≤ 0xFEFF ∧
    (mmBase.get 0xFEA0 = none ∧ mmBase.write 0xFEA0 0 = some mmBase) :=
  ⟨by decide, by decide,
   c5_unusable_region_reads_panic mmBase 0xFEA0 0 (by decide) (by decide)⟩

/-- C6: DIV is claimed to increment every 64 calls of `Timer::cycle`. From
`Timer::new` the prescaler starts at 64*4 = 256 and reloads on reaching 0,
so DIV is still 0 after 64 and even after 256 cycles and first becomes 1 on
the 257th cycle. The second half of the claim does hold: any write to
0xFF04 resets DIV to 0, and 0xFF04 reads back DIV. -/
theorem c6_div_period_is_257_cycles :
    (timerIter 64).div = 0 ∧ (timerIter 256).div = 0 ∧
    (timerIter 257).div = 1 ∧
    (∀ (t : Timer) (v : Nat), t.write 0xFF04 v = some {t with div := 0}) ∧
    (∀ t : Timer, t.read 0xFF04 = some t.div) := by
  refine ⟨?_, ?_, ?_, fun t v => rfl, fun t => rfl⟩
  · rw [timer_warmup 64 (by omega)]
    rfl
  · rw [timer_warmup 256 (by omega)]
    rfl
  · have hstep : timerIter 257 = timerStep (timerIter 256) := by
      unfold timerIter
      rw [Function.iterate_succ_apply']
    rw [hstep, timer_warmup 256 (by omega)]
    simp [timerStep, Timer.cycle, timerNew]

/-- C7 counterexample: the claim says every visible scanline spends exactly
20 M-cycles in OAM scan. On scanline 1 (the PPU states after cycles
114..227 from power-on, all of which have LY = 1) the mode equals OAM scan
for 21 of the 114 cycles, not 20: the dispatch keeps OAM scan for counter
values 0 through 20 inclusive. -/
theorem c7_oam_scan_lasts_21_cycles_on_line_1 :
    ((Finset.range 114).filter
      (fun c => (ppuIter (114 + c)).mode = PpuMode.oamScan)).card = 21 ∧
    ((Finset.range 114).filter
      (fun c => (ppuIter (114 + c)).line = 1)).card = 114 := by
  have key : ∀ c, c ∈ Finset.range 114 →
      (ppuIter (114 + c)).mode = sched c ∧ (ppuIter (114 + c)).line = 1 := by
    intro c hc
    rw [Finset.mem_range] at hc
    obtain ⟨_, i2, i3⟩ := ppuIter_mcl (114 + c) (by omega)
    have d1 : (114 + c) / 114 = 1 := by omega
    have d2 : (114 + c) % 114 = c := by omega
    rw [d1] at i2 i3
    rw [d2] at i3
    rw [if_pos (by norm_num : (1 : Nat) % 154 < 144)] at i3
    exact ⟨i3, by omega⟩
  constructor
  · rw [Finset.filter_congr (fun c hc => by rw [(key c hc).1])]
    decide
  · rw [Finset.filter_congr (fun c hc => by rw [(key c hc).2])]
    simp

/-- C7 (amended): on every visible scanline from the second scanline of the
first frame onward (scanline index j >= 1 with j % 154 < 144; the states
after cycles 114j .. 114j+113 all have LY = j % 154), the PPU mode is OAM
scan for the 21 counter values 0..20, DRAW for the 43 values 21..63 and
HBLANK for the remaining 50 values 64..113 of the 114 M-cycle scanline. -/
theorem c7_mode_schedule_21_43_50 (j : Nat) (h1 : 1 ≤ j)
    (h2 : j % 154 < 144) :
    ((Finset.range 114).filter
      (fun c => (ppuIter (114 * j + c)).mode = PpuMode.oamScan))
        = Finset.range 21 ∧
    ((Finset.range 114).filter
      (fun c => (ppuIter (114 * j + c)).mode = PpuMode.drawingPixels))
        = Finset.Ico 21 64 ∧
    ((Finset.range 114).filter
      (fun c => (ppuIter (114 * j + c)).mode = PpuMode.hblank))
        = Finset.Ico 64 114 ∧
    ((Finset.range 114).filter
      (fun c => (ppuIter (114 * j + c)).line = j % 154))
        = Finset.range 114 := by
  have key : ∀ c, c ∈ Finset.range 114 →
      (ppuIter (114 * j + c)).mode = sched c ∧
      (ppuIter (114 * j + c)).line = j % 154 := by
    intro c hc
    rw [Finset.mem_range] at hc
    obtain ⟨_, i2, i3⟩ := ppuIter_mcl (114 * j + c) (by omega)
    have d1 : (114 * j + c) / 114 = j := by omega
    have d2 : (114 * j + c) % 114 = c := by omega
    rw [d1] at i2 i3
    rw [d2] at i3
    rw [if_pos h2] at i3
    exact ⟨i3, i2⟩
  refine ⟨?_, ?_, ?_, ?_⟩
  · rw [Finset.filter_congr (fun c hc => by rw [(key c hc).1])]
    decide
  · rw [Finset.filter_congr (fun c hc => by rw [(key c hc).1])]
    decide
  · rw [Finset.filter_congr (fun c hc => by rw [(key c hc).1])]
    decide
  · rw [Finset.filter_congr (fun c hc => by rw [(key c hc).2])]
    simp

/-- C7 witness: the amended schedule instantiated on scanline j = 1. -/
theorem c7_mode_schedule_21_43_50_witness :
    (1 : Nat) ≤ 1 ∧ (1 : Nat) % 154 < 144 ∧
    (((Finset.range 114).filter
      (fun c => (ppuIter (114 * 1 + c)).mode = PpuMode.oamScan))
        = Finset.range 21 ∧
    ((Finset.range 114).filter
      (fun c => (ppuIter (114 * 1 + c)).mode = PpuMode.drawingPixels))
        = Finset.Ico 21 64 ∧
    ((Finset.range 114).filter
      (fun c => (ppuIter (114 * 1 + c)).mode = PpuMode.hblank))
        = Finset.Ico 64 114 ∧
    ((Finset.range 114).filter
      (fun c => (ppuIter (114 * 1 + c)).line = 1 % 154))
        = Finset.range 114) :=
  ⟨by decide, by decide, c7_mode_schedule_21_43_50 1 (by decide) (by decide)⟩

/-- C8: the four accumulator-only short rotates are claimed to force Z = 0.
RLA, RLCA and RRCA do (op_rl / op_rlc / op_rrc take a flag suppressing Z,
shown here on inputs whose rotated result is 0), but RRA calls op_rr,
which has no such flag: from A = 0x01 with all flags clear, RRA leaves
A = 0x00 and F = 0x90, i.e. the Z bit (0x80) is set. -/
theorem c8_rra_sets_z_on_zero_result :
    (Cpu.evalBit {cpuNew with af := ⟨0x01, 0x00⟩} .rra).map
      (fun c => (c.af.high, c.af.low)) = some (0x00, 0x90) ∧
    0x90 &&& fZERO ≠ 0 ∧
    (Cpu.evalBit {cpuNew with af := ⟨0x00, 0x00⟩} .rrca).map
      (fun c => (c.af.high, c.af.low)) = some (0x00, 0x00) ∧
    (Cpu.evalBit {cpuNew with af := ⟨0x00, 0x00⟩} .rlca).map
      (fun c => (c.af.high, c.af.low)) = some (0x00, 0x00) ∧
    (Cpu.evalBit {cpuNew with af := ⟨0x80, 0x00⟩} .rla).map
      (fun c => (c.af.high, c.af.low)) = some (0x00, 0x10) :=
  ⟨rfl, by decide, rfl, rfl, rfl⟩

/-- C9: for every register pair in {BC, DE, HL, AF}, executing PUSH r then
POP r (as decoded: the dedicated PushAF/PopAF variants for AF) restores SP
to its pre-PUSH value and restores the pair, except that for AF the low
four bits of F read back as zero. -/
theorem c9_push_pop_identity (s : Cpu) (r : RegisterPairStk)
    (h1 : s.sp.high < 256) (h2 : s.sp.low < 256)
    (h3 : (s.rpStk r).high < 256) (h4 : (s.rpStk r).low < 256) :
    ∃ s1 s2, s.evalStack (pushInstr r) = some s1 ∧
      s1.evalStack (popInstr r) = some s2 ∧
      s2.sp.high = s.sp.high ∧ s2.sp.low = s.sp.low ∧
      (s2.rpStk r).high = (s.rpStk r).high ∧
      (s2.rpStk r).low = (if r = .af then (s.rpStk r).low &&& 0xF0
                          else (s.rpStk r).low) := by
  have hv : (s.rpStk r).asU16 < 65536 := by
    rw [RegisterPairValue.asU16]; omega
  obtain ⟨w1, w2, w3⟩ := wfPushPop s (s.rpStk r).asU16 3 hv h1 h2
  set t : Cpu := {s.push (s.rpStk r).asU16 with stall := 3} with ht
  cases r
  case af =>
    simp only [Cpu.rpStk] at h3 h4 w1
    refine ⟨t, _, es_pushAF s, es_popAF t, ?_, ?_, ?_, ?_⟩
    · exact w2
    · exact w3
    · show (RegisterPairValue.fromU16 ((t.pop).1)).high = s.af.high
      rw [w1, fromU16_high, RegisterPairValue.asU16]
      omega
    · show fset (fset (fset (fset 0 fZERO
          ((RegisterPairValue.fromU16 ((t.pop).1)).low &&& fZERO != 0))
          fSUBTRACT
          ((RegisterPairValue.fromU16 ((t.pop).1)).low &&& fSUBTRACT != 0))
          fHALF_CARRY
          ((RegisterPairValue.fromU16 ((t.pop).1)).low &&& fHALF_CARRY != 0))
          fCARRY
          ((RegisterPairValue.fromU16 ((t.pop).1)).low &&& fCARRY != 0) =
        (if (RegisterPairStk.af = RegisterPairStk.af)
         then s.af.low &&& 0xF0 else s.af.low)
      rw [if_pos rfl, w1, fromU16_low]
      have hlow : RegisterPairValue.asU16 s.af % 256 = s.af.low := by
        rw [RegisterPairValue.asU16]; omega
      rw [hlow, popAF_flag_mask s.af.low h4]
  case bc =>
    simp only [Cpu.rpStk] at h3 h4 w1
    refine ⟨t, _, es_pushR16 s .bc, es_popR16 t .bc, ?_, ?_, ?_, ?_⟩
    · rw [setRpStk_sp]; exact w2
    · rw [setRpStk_sp]; exact w3
    · show ((t.pop).2.setRpStk .bc
        (RegisterPairValue.fromU16 (t.pop).1)).bc.high = s.bc.high
      rw [show ((t.pop).2.setRpStk .bc
        (RegisterPairValue.fromU16 (t.pop).1)).bc =
          RegisterPairValue.fromU16 (t.pop).1 from rfl]
      rw [w1, fromU16_high, RegisterPairValue.asU16]
      omega
    · show ((t.pop).2.setRpStk .bc
        (RegisterPairValue.fromU16 (t.pop).1)).bc.low =
        (if (RegisterPairStk.bc = RegisterPairStk.af)
         then s.bc.low &&& 0xF0 else s.bc.low)
      rw [show ((t.pop).2.setRpStk .bc
        (RegisterPairValue.fromU16 (t.pop).1)).bc =
          RegisterPairValue.fromU16 (t.pop).1 from rfl]
      rw [if_neg (by decide), w1, fromU16_low, RegisterPairValue.asU16]
      omega
  case de =>
    simp only [Cpu.rpStk] at h3 h4 w1
    refine ⟨t, _, es_pushR16 s .de, es_popR16 t .de, ?_, ?_, ?_, ?_⟩
    · rw [setRpStk_sp]; exact w2
    · rw [setRpStk_sp]; exact w3
    · show ((t.pop).2.setRpStk .de
        (RegisterPairValue.fromU16 (t.pop).1)).de.high = s.de.high
      rw [show ((t.pop).2.setRpStk .de
        (RegisterPairValue.fromU16 (t.pop).1)).de =
          RegisterPairValue.fromU16 (t.pop).1 from rfl]
      rw [w1, fromU16_high, RegisterPairValue.asU16]
      omega
    · show ((t.pop).2.setRpStk .de
        (RegisterPairValue.fromU16 (t.pop).1)).de.low =
        (if (RegisterPairStk.de = RegisterPairStk.af)
         then s.de.low &&& 0xF0 else s.de.low)
      rw [show ((t.pop).2.setRpStk .de
        (RegisterPairValue.fromU16 (t.pop).1)).de =
          RegisterPairValue.fromU16 (t.pop).1 from rfl]
      rw [if_neg (by decide), w1, fromU16_low, RegisterPairValue.asU16]
      omega
  case hl =>
    simp only [Cpu.rpStk] at h3 h4 w1
    refine ⟨t, _, es_pushR16 s .hl, es_popR16 t .hl, ?_, ?_, ?_, ?_⟩
    · rw [setRpStk_sp]; exact w2
    · rw [setRpStk_sp]; exact w3
    · show ((t.pop).2.setRpStk .hl
        (RegisterPairValue.fromU16 (t.pop).1)).hl.high = s.hl.high
      rw [show ((t.pop).2.setRpStk .hl
        (RegisterPairValue.fromU16 (t.pop).1)).hl =
          RegisterPairValue.fromU16 (t.pop).1 from rfl]
      rw [w1, fromU16_high, RegisterPairValue.asU16]
      omega
    · show ((t.pop).2.setRpStk .hl
        (RegisterPairValue.fromU16 (t.pop).1)).hl.low =
        (if (RegisterPairStk.hl = RegisterPairStk.af)
         then s.hl.low &&& 0xF0 else s.hl.low)
      rw [show ((t.pop).2.setRpStk .hl
        (RegisterPairValue.fromU16 (t.pop).1)).hl =
          RegisterPairValue.fromU16 (t.pop).1 from rfl]
      rw [if_neg (by decide), w1, fromU16_low, RegisterPairValue.asU16]
      omega

/-- C9 witness: the push/pop identity instantiated at the post-boot CPU
state with the BC pair. -/
theorem c9_push_pop_identity_witness :
    cpuNew.sp.high < 256 ∧ cpuNew.sp.low < 256 ∧
    (cpuNew.rpStk .bc).high < 256 ∧ (cpuNew.rpStk .bc).low < 256 ∧
    (∃ s1 s2, cpuNew.evalStack (pushInstr .bc) = some s1 ∧
      s1.evalStack (popInstr .bc) = some s2 ∧
      s2.sp.high = cpuNew.sp.high ∧ s2.sp.low = cpuNew.sp.low ∧
      (s2.rpStk .bc).high = (cpuNew.rpStk .bc).high ∧
      (s2.rpStk .bc).low =
        (if RegisterPairStk.bc = RegisterPairStk.af
         then (cpuNew.rpStk .bc).low &&& 0xF0
         else (cpuNew.rpStk .bc).low)) :=
  ⟨by decide, by decide, by decide, by decide,
   c9_push_pop_identity cpuNew .bc (by decide) (by decide) (by decide)
     (by decide)⟩

/-- C10: a CPU write of any byte v to 0xFF0F stores v into the IF register
verbatim (no bits masked, none forced high) and a subsequent read of 0xFF0F
returns exactly v, bits 7-5 included; the bus's power-on initialisation
leaves IF = 0xE1, so the three unused high bits start set. -/
theorem c10_if_register_write_verbatim :
    (∀ (s : MappedMemory) (v : Nat),
       s.write 0xFF0F v = some {s with intRequest := v} ∧
       MappedMemory.get {s with intRequest := v} 0xFF0F = some v) ∧
    (mmNew [] ppuNew timerNew).map (fun m => m.intRequest) = some 0xE1 :=
  ⟨fun s v => ⟨rfl, rfl⟩, rfl⟩
